import Mathlib

/-!
# Airport ground-operations simulator: a shallow embedding with proofs

This file embeds the core of the airport ground-traffic simulator
(`simulator/layout.py`, `rules.py`, `params.py`, `capacity.py`, `routing.py`,
`spawning.py`, `model_core.py`, `metrics.py`, `runner.py`) into Lean and
proves properties of the embedded definitions.

Modelling conventions:

* Python floats (metres, seconds, speeds) are modelled as `ℚ`.
* Python dicts are modelled as association lists (`List (key × value)`) or, when
  the dict key is also stored in the value, as plain lists of the values; dict
  iteration order is insertion order, which the list order models.  Lookup is
  first match, which agrees with a dict whose keys are distinct.
* A Python `random.Random` instance is modelled by `PyRng`: an infinite stream
  of draws together with a cursor.  Each call of `random()` (and each primitive
  that Python implements with one underlying draw — `choice`, `choices(k=1)`,
  `uniform`, and each Fisher–Yates step of `shuffle`) consumes one stream
  element, mapped into `[0,1)` by taking the fractional part.  This abstracts
  the Mersenne-Twister bit stream while keeping exactly the program structure:
  which component draws from which generator, and in which order.
* `uuid.uuid4().hex` (used for aircraft ids) does **not** read any
  `random.Random` generator; it is operating-system entropy.  It is modelled as
  an explicit extra `String` input of the spawn functions.
* Mutation is modelled by explicit state passing: functions that mutate
  `CapacityState`, an `Aircraft`, or an RNG in Python return the updated value.
-/

/- Batteries marks the `Rat` field operations `@[irreducible]`, which blocks
`decide`/`rfl` evaluation of concrete rational arithmetic.  The embedded
simulator is evaluated on concrete fixtures throughout this development, so
the default (semireducible) status is restored for them. -/
set_option allowUnsafeReducibility true
attribute [semireducible] Rat.add Rat.mul Rat.sub Rat.inv Rat.div

namespace AirportSim

/-- Python's `%` on reals: `a - b * ⌊a / b⌋` (result has the divisor's sign). -/
def pyMod (a b : ℚ) : ℚ := a - b * ⌊a / b⌋

/-- Map an arbitrary stream value into `[0,1)`, the range of `random()`. -/
def unitInterval (q : ℚ) : ℚ := Int.fract q

/-- A `random.Random` instance: a stream of draws with a cursor.  Each
primitive call consumes one stream element. -/
structure PyRng where
  draws : Nat → ℚ
  pos : Nat := 0

/-- `rng.random()`: one uniform draw in `[0,1)`. -/
def PyRng.random (r : PyRng) : ℚ × PyRng :=
  (unitInterval (r.draws r.pos), { r with pos := r.pos + 1 })

/-- `rng.uniform(a, b)`: one draw, scaled to `[a,b]`. -/
def PyRng.uniform (r : PyRng) (a b : ℚ) : ℚ × PyRng :=
  let (u, r') := r.random
  (a + u * (b - a), r')

/-- `rng.choice(lst)` on a list known nonempty (head and tail given):
index `⌊u·n⌋` of the list. -/
def PyRng.choiceNE {α : Type} (r : PyRng) (x : α) (xs : List α) : α × PyRng :=
  let (u, r') := r.random
  let n : Nat := xs.length + 1
  ((x :: xs).getD (u * n).floor.toNat x, r')

/-- `rng.choices(items, weights)[0]`: one draw `u`; pick the first item whose
cumulative weight exceeds `u · total`.  Empty input returns the default. -/
def weightedIndex (weights : List ℚ) (t : ℚ) : Nat :=
  match weights with
  | [] => 0
  | w :: ws => if t < w then 0 else weightedIndex ws (t - w) + 1

/-- `rng.choices(classes, weights=weights)[0]` for string-keyed class mixes. -/
def PyRng.weightedChoice (r : PyRng) (items : List (String × ℚ)) : String × PyRng :=
  let (u, r') := r.random
  let total : ℚ := (items.map Prod.snd).sum
  let i := weightedIndex (items.map Prod.snd) (u * total)
  ((items.getD i ("medium", 0)).fst, r')

/-- Association-list read with default: Python `d.get(k, default)`. -/
def alGet {κ α : Type} [BEq κ] (l : List (κ × α)) (k : κ) (dflt : α) : α :=
  match l.find? (fun p => p.fst == k) with
  | some p => p.snd
  | none => dflt

/-- Association-list write: Python `d[k] = v` (replace in place, else append;
insertion order is preserved). -/
def alSet {κ α : Type} [BEq κ] (l : List (κ × α)) (k : κ) (v : α) : List (κ × α) :=
  if l.any (fun p => p.fst == k) then
    l.map (fun p => if p.fst == k then (k, v) else p)
  else l ++ [(k, v)]

/-- Association-list delete: Python `d.pop(k, None)`. -/
def alDel {κ α : Type} [BEq κ] (l : List (κ × α)) (k : κ) : List (κ × α) :=
  l.filter (fun p => !(p.fst == k))

/-- Python `sub in s` substring test. -/
def strContains (s sub : String) : Bool :=
  s.toList.tails.any (fun t => sub.toList.isPrefixOf t)

/-! ## Layout (`layout.py`) -/

/-- Node kinds (`NodeType`). -/
inductive NodeType
  | intersection | runway_end | runway_entry | runway_exit
  | gate | hold_point | apron_center
deriving DecidableEq, Repr

/-- Edge kinds (`EdgeType`). -/
inductive EdgeType
  | runway | taxiway | apron_link | rapid_exit
deriving DecidableEq, Repr

/-- Flow restriction of an edge (`AllowedFlow`). -/
inductive AllowedFlow
  | arrival | departure | both
deriving DecidableEq, Repr

/-- A node of the airport graph (`Node`; the display polyline is dropped). -/
structure Node where
  id : String
  node_type : NodeType
  x : ℚ := 0
  y : ℚ := 0
  name : String := ""
  apron : Option String := none
  size_class : Option String := none
deriving DecidableEq, Repr

/-- An edge of the airport graph (`Edge`). -/
structure Edge where
  id : String
  edge_type : EdgeType
  start_node : String
  end_node : String
  length : ℚ
  allowed_flow : AllowedFlow := .both
  one_way : Bool := false
  speed_hint : Option ℚ := none
  capacity_hint : Option Nat := none
deriving DecidableEq, Repr

/-- The layout: dicts `id → Node` and `id → Edge` in insertion order.  The
derived adjacency lists `_edges_from` are recomputed from the edge list (they
are exactly what `add_edge` accumulates when the edges are inserted in list
order). -/
structure Layout where
  nodes : List Node
  edges : List Edge
deriving DecidableEq, Repr

def Layout.get_node (l : Layout) (node_id : String) : Option Node :=
  l.nodes.find? (fun n => n.id == node_id)

def Layout.get_edge (l : Layout) (edge_id : String) : Option Edge :=
  l.edges.find? (fun e => e.id == edge_id)

/-- The id list `_edges_from[node_id]`: for each inserted edge, its id is
appended for its start node, and also for its end node when not one-way. -/
def Layout.edgesFromIds (l : Layout) (node_id : String) : List String :=
  l.edges.flatMap (fun e =>
    (if e.start_node == node_id then [e.id] else []) ++
    (if !e.one_way && e.end_node == node_id then [e.id] else []))

/-- `get_edges_from_node`: resolve the adjacency ids through the edge dict. -/
def Layout.get_edges_from_node (l : Layout) (node_id : String) : List Edge :=
  (l.edgesFromIds node_id).filterMap l.get_edge

def Layout.get_nodes_by_type (l : Layout) (t : NodeType) : List Node :=
  l.nodes.filter (fun n => n.node_type == t)

def Layout.get_edges_by_type (l : Layout) (t : EdgeType) : List Edge :=
  l.edges.filter (fun e => e.edge_type == t)

def Layout.get_gates (l : Layout) : List Node := l.get_nodes_by_type .gate

def Layout.get_hold_points (l : Layout) : List Node := l.get_nodes_by_type .hold_point

def Layout.get_runway_ends (l : Layout) : List Node := l.get_nodes_by_type .runway_end

/-! ## Pure rules (`rules.py`) -/

/-- `can_access(edge, aircraft_class, is_arrival)`.  The aircraft class is
currently unrestricted (reserved in the source). -/
def can_access (edge : Edge) (_aircraft_class : String) (is_arrival : Bool) : Bool :=
  if edge.allowed_flow == .arrival && !is_arrival then false
  else if edge.allowed_flow == .departure && is_arrival then false
  else if edge.edge_type == .rapid_exit && !is_arrival then false
  else true

/-- `get_section_type(edge)`. -/
def get_section_type (edge : Edge) : String :=
  if edge.edge_type == .runway then "runway"
  else if edge.edge_type == .apron_link then "apron"
  else "taxiway"

/-- `get_active_runway_direction(wind_direction)`. -/
def get_active_runway_direction (wind_direction : ℚ) : String :=
  let w := pyMod wind_direction 360
  if 180 ≤ w ∧ w < 360 then "27" else "09"

/-- `can_release_from_hold(runway_available, next_edge_free)` (`rules.py`). -/
def rules_can_release_from_hold (runway_available next_edge_free : Bool) : Bool :=
  runway_available && next_edge_free

/-! ### Priority ordering (`get_priority_order`)

The `random` branch executes `import random; random.shuffle(indices)`: it draws
from the **global `random`-module generator**, not from any generator passed in
by the caller.  The embedding therefore takes that global generator as an
explicit `PyRng` argument named `globalRng`. -/

/-- Priority modes (`PriorityMode` in `params.py`). -/
inductive PriorityMode
  | fifo | depart_first | arrive_first | weighted | size_priority | random
deriving DecidableEq, Repr

/-- One Fisher–Yates step: swap positions `i` and `j` of the list. -/
def listSwap {α : Type} (l : List α) (i j : Nat) : List α :=
  match l.get? i, l.get? j with
  | some a, some b => (l.set i b).set j a
  | _, _ => l

/-- `random.shuffle` downward loop: for `i = n-1 … 1`, draw `j ≤ i` and swap.
`k` counts the remaining iterations, so `i = k`. -/
def shuffleSteps {α : Type} (rng : PyRng) (l : List α) : Nat → List α × PyRng
  | 0 => (l, rng)
  | k + 1 =>
      let (u, rng') := rng.random
      let j : Nat := min (u * ((k + 1 : Nat) + 1)).floor.toNat k.succ
      shuffleSteps rng' (listSwap l (k + 1) j) k

/-- `random.shuffle(l)` with the given generator state. -/
def pyShuffle {α : Type} (rng : PyRng) (l : List α) : List α × PyRng :=
  match l.length with
  | 0 => (l, rng)
  | n + 1 => shuffleSteps rng l n

/-- Size ranking used by `size_priority`: `{"large": 0, "medium": 1, "small": 2}`
with default 1. -/
def sizeRank (s : String) : Nat :=
  if s == "large" then 0 else if s == "medium" then 1 else if s == "small" then 2 else 1

/-- Stable ascending insertion by a `Nat` key (Python `list.sort(key=...)` is a
stable ascending sort; equal keys keep their original order).  The sort below
inserts elements back to front, so the element being inserted precedes, in the
original list, everything already inserted: placing it before equal keys
(`≤`) keeps equal-key runs in original order. -/
def insertByKey {α : Type} (key : α → Nat) (a : α) : List α → List α
  | [] => [a]
  | b :: bs => if key a ≤ key b then a :: b :: bs else b :: insertByKey key a bs

/-- Stable sort by a `Nat` key. -/
def sortByKey {α : Type} (key : α → Nat) : List α → List α
  | [] => []
  | a :: as => insertByKey key a (sortByKey key as)

/-- `get_priority_order(queue, priority_mode, get_arrival_status, get_size_class)`.

Returns the list of indices in priority order.  `get_arrival_status` and
`get_size_class` are optional in the source; `none` models passing `None`.
`globalRng` is the global `random`-module generator consumed by the `random`
branch (and only by it). -/
def get_priority_order {α : Type} (queue : List α) (priority_mode : PriorityMode)
    (get_arrival_status : Option (α → Bool)) (get_size_class : Option (α → String))
    (globalRng : PyRng) : List Nat × PyRng :=
  if queue.isEmpty then ([], globalRng)
  else
    let indices := List.range queue.length
    match priority_mode with
    | .fifo => (indices, globalRng)
    | .random => pyShuffle globalRng indices
    | .depart_first =>
        match get_arrival_status with
        | some f =>
            (sortByKey (fun i => match queue.get? i with
              | some a => if f a then 1 else 0
              | none => 0) indices, globalRng)
        | none => (indices, globalRng)
    | .arrive_first =>
        match get_arrival_status with
        | some f =>
            (sortByKey (fun i => match queue.get? i with
              | some a => if f a then 0 else 1
              | none => 0) indices, globalRng)
        | none => (indices, globalRng)
    | .size_priority =>
        match get_size_class with
        | some f =>
            (sortByKey (fun i => match queue.get? i with
              | some a => sizeRank (f a)
              | none => 1) indices, globalRng)
        | none => (indices, globalRng)
    | .weighted => (indices, globalRng)

/-- `get_next_to_release(queue, ...)`: head of the priority order. -/
def get_next_to_release {α : Type} (queue : List α) (priority_mode : PriorityMode)
    (get_arrival_status : Option (α → Bool)) (get_size_class : Option (α → String))
    (globalRng : PyRng) : Option Nat × PyRng :=
  let (order, g') := get_priority_order queue priority_mode get_arrival_status get_size_class globalRng
  (order.head?, g')

/-! ## Parameters (`params.py`) -/

/-- Modes for parameter evaluation (`ParamMode`). -/
inductive ParamMode
  | off | fixed | random | realistic
deriving DecidableEq, Repr

/-- Traffic modes (`TrafficMode`). -/
inductive TrafficMode
  | departures_only | arrivals_only | mixed
deriving DecidableEq, Repr

/-- A Python value stored in a `Parameter` slot (`value` has type `Any`).
`pynone` is Python `None`; `other` stands for any non-scalar value. -/
inductive PVal
  | num (q : ℚ) | str (s : String) | pynone | other
deriving DecidableEq, Repr

/-- Python truthiness of a `PVal` (`bool(value)`); `other` is taken truthy. -/
def PVal.truthy : PVal → Bool
  | .num q => !(q == 0)
  | .str s => !(s == "")
  | .pynone => false
  | .other => true

/-- `value or default` for numeric slots (`param.evaluate(rng) or 0.0`):
falsy values give the default, and a numeric value gives itself.  Non-numeric
truthy values would propagate ill-typed data in Python; they are mapped to the
default here (no simulator code path produces them). -/
def PVal.toRate (v : PVal) (dflt : ℚ) : ℚ :=
  match v with
  | .num q => if q == 0 then dflt else q
  | _ => dflt

/-- Likewise for string slots (`self.weather_condition.evaluate(rng) or "good"`). -/
def PVal.toStr (v : PVal) (dflt : String) : String :=
  match v with
  | .str s => if s == "" then dflt else s
  | _ => dflt

/-- A configurable parameter (`Parameter`). -/
structure Parameter where
  mode : ParamMode := .fixed
  value : PVal := .pynone
  min_val : Option ℚ := none
  max_val : Option ℚ := none
  choices : Option (List PVal) := none
deriving DecidableEq, Repr

/-- `Parameter.evaluate(rng)`.  In `random` mode, `if self.choices:` is Python
truthiness: a nonempty list.  The `rng is None` fallback never occurs in the
simulator (the run RNG is always passed), so the generator argument is positional. -/
def Parameter.evaluate (p : Parameter) (rng : PyRng) : PVal × PyRng :=
  match p.mode with
  | .off => (.pynone, rng)
  | .fixed => (p.value, rng)
  | .random =>
      match p.choices with
      | some (c :: cs) => rng.choiceNE c cs
      | _ =>
          match p.min_val, p.max_val with
          | some a, some b =>
              let (q, rng') := rng.uniform a b
              (.num q, rng')
          | _, _ => (p.value, rng)
  | .realistic => (p.value, rng)

/-- The parameter bundle (`SimulationParams`).  The `_rng` member is modelled
by explicit `PyRng` state passing in every function that draws from it. -/
structure SimulationParams where
  departure_spawn_rate : Parameter := { value := .num (1/2) }
  arrival_spawn_rate : Parameter := { value := .num (3/10) }
  departure_class_mix : List (String × ℚ) :=
    [("small", 1/5), ("medium", 1/2), ("large", 3/10)]
  arrival_class_mix : List (String × ℚ) :=
    [("small", 3/10), ("medium", 2/5), ("large", 3/10)]
  traffic_mode : TrafficMode := .mixed
  weather_condition : Parameter := { value := .str "good" }
  wind_speed : Parameter := { value := .num 0 }
  wind_direction : Parameter := { value := .num 180 }
  speed_base : List (String × ℚ) := [("small", 5), ("medium", 6), ("large", 4)]
  speed_mult_section : List (String × ℚ) := [("runway", 1), ("taxiway", 4/5), ("apron", 1/2)]
  speed_mult_weather : List (String × ℚ) := [("good", 1), ("mild", 9/10), ("bad", 7/10)]
  separation_runway : ℚ := 100
  separation_taxiway : ℚ := 50
  separation_apron : ℚ := 30
  sep_mult_weather : List (String × ℚ) := [("good", 1), ("mild", 6/5), ("bad", 3/2)]
  runway_priority_mode : PriorityMode := .fifo
  intersection_priority_mode : PriorityMode := .fifo
  hold_release_priority : PriorityMode := .fifo
  gate_capacities : List (String × Nat) := [("apron_A", 10), ("apron_B", 8)]
  runway_capacity : Nat := 1
  time_step_size : ℚ := 1
  total_duration : ℚ := 3600
  random_seed : Int := 42
deriving DecidableEq, Repr

/-- `get_spawn_rate(is_arrival, time)`. -/
def SimulationParams.get_spawn_rate (p : SimulationParams) (is_arrival : Bool)
    (rng : PyRng) : ℚ × PyRng :=
  if p.traffic_mode == .departures_only && is_arrival then (0, rng)
  else if p.traffic_mode == .arrivals_only && !is_arrival then (0, rng)
  else
    let param := if is_arrival then p.arrival_spawn_rate else p.departure_spawn_rate
    let (v, rng') := param.evaluate rng
    (v.toRate 0, rng')

/-- `get_weather(time)`. -/
def SimulationParams.get_weather (p : SimulationParams) (rng : PyRng) : String × PyRng :=
  let (v, rng') := p.weather_condition.evaluate rng
  (v.toStr "good", rng')

/-- `get_wind(time)`: wind speed then wind direction.  A falsy evaluation
(`or 0.0`) gives 0. -/
def SimulationParams.get_wind (p : SimulationParams) (rng : PyRng) : (ℚ × ℚ) × PyRng :=
  let (vs, rng1) := p.wind_speed.evaluate rng
  let (vd, rng2) := p.wind_direction.evaluate rng1
  ((vs.toRate 0, vd.toRate 0), rng2)

/-- `get_speed_limit(aircraft_class, section_type, weather)` with the weather
string already resolved (callers in the movement kernel pass `weather=None`,
which resolves through `get_weather`). -/
def SimulationParams.get_speed_limit_w (p : SimulationParams) (aircraft_class : String)
    (section_type : String) (weather : String) : ℚ :=
  alGet p.speed_base aircraft_class 5 *
    alGet p.speed_mult_section section_type 1 *
    alGet p.speed_mult_weather weather 1

/-- `get_separation(section_type, weather)` with the weather string resolved. -/
def SimulationParams.get_separation_w (p : SimulationParams) (section_type : String)
    (weather : String) : ℚ :=
  let base :=
    if section_type == "runway" then p.separation_runway
    else if section_type == "taxiway" then p.separation_taxiway
    else if section_type == "apron" then p.separation_apron
    else p.separation_taxiway
  base * alGet p.sep_mult_weather weather 1

/-- `sample_aircraft_class(is_arrival)`: weighted pick from the class mix,
drawn from the run RNG. -/
def SimulationParams.sample_aircraft_class (p : SimulationParams) (is_arrival : Bool)
    (rng : PyRng) : String × PyRng :=
  rng.weightedChoice (if is_arrival then p.arrival_class_mix else p.departure_class_mix)

/-! ### Mid-run update (`apply_midrun_update`) -/

/-- `ParamMode(s)`: `none` models the `ValueError` raised on an unknown string. -/
def ParamMode.ofString (s : String) : Option ParamMode :=
  if s == "off" then some .off
  else if s == "fixed" then some .fixed
  else if s == "random" then some .random
  else if s == "realistic" then some .realistic
  else none

/-- `PriorityMode(s)`: `none` models the `ValueError` on an unknown string. -/
def PriorityMode.ofString (s : String) : Option PriorityMode :=
  if s == "fifo" then some .fifo
  else if s == "depart_first" then some .depart_first
  else if s == "arrive_first" then some .arrive_first
  else if s == "weighted" then some .weighted
  else if s == "size_priority" then some .size_priority
  else if s == "random" then some .random
  else none

/-- A value of an update dict entry (type `Any` in the source).  `vdict` is a
Python dict (carrying the fields `Parameter.from_dict` reads, and whether the
key `"mode"` is present); the others are scalars. -/
inductive UpdVal
  | vdict (hasMode : Bool) (mode : String) (value : PVal)
      (min_val max_val : Option ℚ) (choices : Option (List PVal))
  | vnum (q : ℚ)
  | vstr (s : String)
  | vnone
deriving DecidableEq, Repr

/-- Scalar view of an `UpdVal` for `current.value = value` and for
`Parameter.from_dict` applied to a non-dict. -/
def UpdVal.toPVal : UpdVal → PVal
  | .vdict _ _ _ _ _ _ => .other
  | .vnum q => .num q
  | .vstr s => .str s
  | .vnone => .pynone

/-- `Parameter.from_dict(data)`.  `none` models the `ValueError` raised by
`ParamMode(...)` on an invalid mode string. -/
def Parameter.from_dict (v : UpdVal) : Option Parameter :=
  match v with
  | .vdict hasMode mode value min_val max_val choices =>
      if hasMode then
        match ParamMode.ofString mode with
        | some m => some (Parameter.mk m value min_val max_val choices)
        | none => none
      else some { mode := .fixed, value := .other }
  | w => some { mode := .fixed, value := w.toPVal }

/-- The `safe_params` list of `apply_midrun_update`. -/
def safe_params : List String :=
  ["departure_spawn_rate", "arrival_spawn_rate",
   "weather_condition", "wind_speed", "wind_direction",
   "runway_priority_mode", "intersection_priority_mode", "hold_release_priority"]

/-- Update one `Parameter`-typed field: a dict value goes through
`Parameter.from_dict`, any other value overwrites `current.value`.  `none`
models a raised `ValueError`. -/
def updOneParameter (current : Parameter) (v : UpdVal) : Option Parameter :=
  match v with
  | .vdict hasMode mode value min_val max_val choices =>
      Parameter.from_dict (.vdict hasMode mode value min_val max_val choices)
  | w => some { current with value := w.toPVal }

/-- Update one `PriorityMode`-typed field: `enum_class(value)`; a non-string
or unknown string raises (`none`). -/
def updOnePriority (v : UpdVal) : Option PriorityMode :=
  match v with
  | .vstr s => PriorityMode.ofString s
  | _ => none

/-- One iteration body of `apply_midrun_update` for a safe key.  `none` means
the Python loop raised at this entry. -/
def applyOneUpdate (p : SimulationParams) (key : String) (v : UpdVal) :
    Option SimulationParams :=
  if key == "departure_spawn_rate" then
    (updOneParameter p.departure_spawn_rate v).map (fun q => { p with departure_spawn_rate := q })
  else if key == "arrival_spawn_rate" then
    (updOneParameter p.arrival_spawn_rate v).map (fun q => { p with arrival_spawn_rate := q })
  else if key == "weather_condition" then
    (updOneParameter p.weather_condition v).map (fun q => { p with weather_condition := q })
  else if key == "wind_speed" then
    (updOneParameter p.wind_speed v).map (fun q => { p with wind_speed := q })
  else if key == "wind_direction" then
    (updOneParameter p.wind_direction v).map (fun q => { p with wind_direction := q })
  else if key == "runway_priority_mode" then
    (updOnePriority v).map (fun m => { p with runway_priority_mode := m })
  else if key == "intersection_priority_mode" then
    (updOnePriority v).map (fun m => { p with intersection_priority_mode := m })
  else if key == "hold_release_priority" then
    (updOnePriority v).map (fun m => { p with hold_release_priority := m })
  else some p

/-- `apply_midrun_update(updates)`.  The update dict is an ordered list of
`(key, value)` entries.  Keys outside `safe_params` are skipped silently.  The
returned flag is `false` when an entry raised (`ValueError` from an enum or
mode conversion), in which case the loop stops there — exactly the partially
applied state the Python object is left in. -/
def SimulationParams.apply_midrun_update (p : SimulationParams) :
    List (String × UpdVal) → SimulationParams × Bool
  | [] => (p, true)
  | (key, v) :: rest =>
      if key ∈ safe_params then
        match applyOneUpdate p key v with
        | some p' => p'.apply_midrun_update rest
        | none => (p, false)
      else p.apply_midrun_update rest

/-- `rules.get_speed_limit(edge, aircraft_class, params, weather)` with the
weather string resolved (the kernel passes `weather=None`, resolved through
`params.get_weather`; the RNG consumption of that resolution is threaded at
the call sites). -/
def get_speed_limit_w (edge : Edge) (aircraft_class : String) (p : SimulationParams)
    (weather : String) : ℚ :=
  let calculated := p.get_speed_limit_w aircraft_class (get_section_type edge) weather
  match edge.speed_hint with
  | some h => min calculated h
  | none => calculated

/-! ## Capacity (`capacity.py`) -/

/-- Gate states (`GateState`). -/
inductive GateState
  | free | occupied | reserved
deriving DecidableEq, Repr

/-- Runway states (`RunwayState`). -/
inductive RunwayState
  | clear | occupied_arrival | occupied_departure
deriving DecidableEq, Repr

/-- Status of a single gate (`GateStatus`). -/
structure GateStatus where
  gate_id : String
  apron : String
  size_class : Option String
  state : GateState := .free
  occupied_by : Option String := none
deriving DecidableEq, Repr

/-- Python truthiness of an optional string (`if self.size_class and ...`). -/
def optStrTruthy : Option String → Bool
  | some s => !(s == "")
  | none => false

/-- `{"small": 1, "medium": 2, "large": 3}.get(x, 2)`. -/
def gateSizeOrder (s : String) : Nat :=
  if s == "small" then 1 else if s == "medium" then 2 else if s == "large" then 3 else 2

/-- `GateStatus.is_available(aircraft_class)`; `none` models passing `None`. -/
def GateStatus.is_available (g : GateStatus) (aircraft_class : Option String) : Bool :=
  if !(g.state == .free) then false
  else if optStrTruthy g.size_class && optStrTruthy aircraft_class then
    gateSizeOrder (aircraft_class.getD "") ≤ gateSizeOrder (g.size_class.getD "")
  else true

/-- Queue at a hold point (`HoldQueue`). -/
structure HoldQueue where
  hold_point_id : String
  queue : List String := []
  waiting_times : List (String × ℚ) := []
deriving DecidableEq, Repr

/-- `HoldQueue.add`: append and zero the waiting time only when absent. -/
def HoldQueue.add (h : HoldQueue) (aircraft_id : String) : HoldQueue :=
  if aircraft_id ∈ h.queue then h
  else { h with queue := h.queue ++ [aircraft_id],
                waiting_times := alSet h.waiting_times aircraft_id 0 }

/-- `HoldQueue.remove`. -/
def HoldQueue.remove (h : HoldQueue) (aircraft_id : String) : HoldQueue :=
  { h with queue := h.queue.erase aircraft_id,
           waiting_times := alDel h.waiting_times aircraft_id }

/-- `HoldQueue.update_waiting_times(dt)`: add `dt` for every queued id. -/
def HoldQueue.update_waiting_times (h : HoldQueue) (dt : ℚ) : HoldQueue :=
  { h with waiting_times :=
      h.queue.foldl (fun wt aid => alSet wt aid (alGet wt aid 0 + dt)) h.waiting_times }

/-- `HoldQueue.is_empty`. -/
def HoldQueue.is_empty (h : HoldQueue) : Bool := h.queue.isEmpty

/-- Status of a runway (`RunwayStatus`). -/
structure RunwayStatus where
  runway_id : String
  state : RunwayState := .clear
  current_aircraft : Option String := none
  active_direction : Option String := none
deriving DecidableEq, Repr

/-- `RunwayStatus.is_available`. -/
def RunwayStatus.is_available (r : RunwayStatus) : Bool := r.state == .clear

/-- `RunwayStatus.occupy(aircraft_id, is_arrival)`. -/
def RunwayStatus.occupy (r : RunwayStatus) (aircraft_id : String) (is_arrival : Bool) :
    RunwayStatus :=
  { r with current_aircraft := some aircraft_id,
           state := if is_arrival then .occupied_arrival else .occupied_departure }

/-- `RunwayStatus.release`. -/
def RunwayStatus.release (r : RunwayStatus) : RunwayStatus :=
  { r with current_aircraft := none, state := .clear }

/-- Occupancy of an edge (`EdgeOccupancy`). -/
structure EdgeOccupancy where
  edge_id : String
  aircraft_ids : List String := []
  capacity : Nat := 10
deriving DecidableEq, Repr

/-- `EdgeOccupancy.add` (deduplicating append). -/
def EdgeOccupancy.add (e : EdgeOccupancy) (aircraft_id : String) : EdgeOccupancy :=
  if aircraft_id ∈ e.aircraft_ids then e
  else { e with aircraft_ids := e.aircraft_ids ++ [aircraft_id] }

/-- `EdgeOccupancy.remove`. -/
def EdgeOccupancy.remove (e : EdgeOccupancy) (aircraft_id : String) : EdgeOccupancy :=
  if aircraft_id ∈ e.aircraft_ids then
    { e with aircraft_ids := e.aircraft_ids.erase aircraft_id }
  else e

/-- `EdgeOccupancy.is_full`. -/
def EdgeOccupancy.is_full (e : EdgeOccupancy) : Bool :=
  e.capacity ≤ e.aircraft_ids.length

/-- Central capacity state (`CapacityState`).  Each Python dict keys its
records by the id stored in the record, so the dicts are modelled by the
record lists in insertion order. -/
structure CapacityState where
  gates : List GateStatus := []
  holds : List HoldQueue := []
  runways : List RunwayStatus := []
  edges : List EdgeOccupancy := []
deriving DecidableEq, Repr

/-- `get_available_gates(apron, aircraft_class)`; `none` models `None`. -/
def CapacityState.get_available_gates (c : CapacityState) (apron : Option String)
    (aircraft_class : Option String) : List String :=
  (c.gates.filter (fun g =>
    (match apron with
     | some a => if optStrTruthy (some a) then g.apron == a else true
     | none => true) &&
    g.is_available aircraft_class)).map GateStatus.gate_id

/-- Rewrite the record of one gate. -/
def CapacityState.setGate (c : CapacityState) (gate_id : String)
    (f : GateStatus → GateStatus) : CapacityState :=
  { c with gates := c.gates.map (fun g => if g.gate_id == gate_id then f g else g) }

/-- `assign_gate(aircraft_id, gate_id, apron, aircraft_class)`.  Only the
`gate_id=None` path is used by the spawner: pick the first available gate and
mark it occupied. -/
def CapacityState.assign_gate (c : CapacityState) (aircraft_id : String)
    (gate_id : Option String) (apron : Option String) (aircraft_class : Option String) :
    Option String × CapacityState :=
  match gate_id with
  | some gid =>
      if optStrTruthy (some gid) then
        match c.gates.find? (fun g => g.gate_id == gid) with
        | some g =>
            if g.is_available aircraft_class then
              (some gid, c.setGate gid (fun g' =>
                { g' with state := .occupied, occupied_by := some aircraft_id }))
            else (none, c)
        | none =>
            match (c.get_available_gates apron aircraft_class).head? with
            | some g0 => (some g0, c.setGate g0 (fun g' =>
                { g' with state := .occupied, occupied_by := some aircraft_id }))
            | none => (none, c)
      else
        match (c.get_available_gates apron aircraft_class).head? with
        | some g0 => (some g0, c.setGate g0 (fun g' =>
            { g' with state := .occupied, occupied_by := some aircraft_id }))
        | none => (none, c)
  | none =>
      match (c.get_available_gates apron aircraft_class).head? with
      | some g0 => (some g0, c.setGate g0 (fun g' =>
          { g' with state := .occupied, occupied_by := some aircraft_id }))
      | none => (none, c)

/-- `release_gate(gate_id)`. -/
def CapacityState.release_gate (c : CapacityState) (gate_id : String) : CapacityState :=
  c.setGate gate_id (fun g => { g with state := .free, occupied_by := none })

/-- Patch `gates[gate_id].occupied_by` (the `"PENDING" → real id` fix-up done
directly by the spawner). -/
def CapacityState.setGateOccupant (c : CapacityState) (gate_id aircraft_id : String) :
    CapacityState :=
  c.setGate gate_id (fun g => { g with occupied_by := some aircraft_id })

/-- Rewrite the record of one hold queue. -/
def CapacityState.setHold (c : CapacityState) (hold_point_id : String)
    (f : HoldQueue → HoldQueue) : CapacityState :=
  { c with holds := c.holds.map (fun h => if h.hold_point_id == hold_point_id then f h else h) }

def CapacityState.findHold (c : CapacityState) (hold_point_id : String) : Option HoldQueue :=
  c.holds.find? (fun h => h.hold_point_id == hold_point_id)

/-- `update_hold_waiting_times(dt)` (the per-tick `advance_waiting` phase). -/
def CapacityState.update_hold_waiting_times (c : CapacityState) (dt : ℚ) : CapacityState :=
  { c with holds := c.holds.map (fun h => h.update_waiting_times dt) }

/-- `is_runway_available(runway_id)`; `none` asks for any runway. -/
def CapacityState.is_runway_available (c : CapacityState) (runway_id : Option String) : Bool :=
  match runway_id with
  | some rid =>
      match c.runways.find? (fun r => r.runway_id == rid) with
      | some r => r.is_available
      | none => false
  | none => c.runways.any RunwayStatus.is_available

/-- `occupy_runway(aircraft_id, runway_id, is_arrival)`: `true` only for a
present, clear runway. -/
def CapacityState.occupy_runway (c : CapacityState) (aircraft_id runway_id : String)
    (is_arrival : Bool) : CapacityState × Bool :=
  match c.runways.find? (fun r => r.runway_id == runway_id) with
  | some r =>
      if r.is_available then
        ({ c with runways := c.runways.map (fun r' =>
            if r'.runway_id == runway_id then r'.occupy aircraft_id is_arrival else r') },
         true)
      else (c, false)
  | none => (c, false)

/-- `release_runway(runway_id)`. -/
def CapacityState.release_runway (c : CapacityState) (runway_id : String) : CapacityState :=
  { c with runways := c.runways.map (fun r =>
      if r.runway_id == runway_id then r.release else r) }

def CapacityState.findEdge (c : CapacityState) (edge_id : String) : Option EdgeOccupancy :=
  c.edges.find? (fun e => e.edge_id == edge_id)

/-- `add_to_edge(aircraft_id, edge_id)`: creates the record when missing. -/
def CapacityState.add_to_edge (c : CapacityState) (aircraft_id edge_id : String) :
    CapacityState :=
  match c.findEdge edge_id with
  | some _ =>
      { c with edges := c.edges.map (fun e =>
          if e.edge_id == edge_id then e.add aircraft_id else e) }
  | none =>
      { c with edges := c.edges ++ [(EdgeOccupancy.mk edge_id [] 10).add aircraft_id] }

/-- `remove_from_edge(aircraft_id, edge_id)`. -/
def CapacityState.remove_from_edge (c : CapacityState) (aircraft_id edge_id : String) :
    CapacityState :=
  match c.findEdge edge_id with
  | some _ =>
      { c with edges := c.edges.map (fun e =>
          if e.edge_id == edge_id then e.remove aircraft_id else e) }
  | none => c

/-- `is_edge_congested` / `is_edge_full`: missing records count as not full. -/
def CapacityState.is_edge_full (c : CapacityState) (edge_id : String) : Bool :=
  match c.findEdge edge_id with
  | some e => e.is_full
  | none => false

/-! ## Routing (`routing.py`)

`find_route` and the Dijkstra inside `reroute_if_needed` share one loop shape;
the embedding defines it once, parameterised by the blocked-edge set and the
congested-edge set.  `find_route` is the instance with both sets empty: the
blocked-edge skip is then a no-op and the congestion cost doubling leaves every
cost at `edge.length`, so the instance is extensionally the `find_route` loop.

Python's heap holds tuples `(distance, node_id, path)` compared
lexicographically; extracting the minimum under that order is modelled by
`popMin`.  The `while pq` loop is given explicit fuel; `dijkstraFuel` is proved
large enough (`dijkstraLoop_no_fuel_exhaustion` below), so the fuel case never
fires for the chosen bound. -/

/-- A route (`Route`). -/
structure Route where
  edges : List String
  origin_node : String
  destination_node : String
  total_length : ℚ := 0
deriving DecidableEq, Repr

/-- A heap entry `(distance, node_id, path)`. -/
structure Entry where
  dist : ℚ
  node : String
  path : List String
deriving DecidableEq, Repr

/-- Lexicographic `≤` on `List String` (Python list comparison). -/
def listStrLe : List String → List String → Bool
  | [], _ => true
  | _ :: _, [] => false
  | a :: as, b :: bs =>
      if a < b then true else if b < a then false else listStrLe as bs

/-- Lexicographic `≤` on entries (Python tuple comparison). -/
def entryLe (a b : Entry) : Bool :=
  if a.dist < b.dist then true
  else if b.dist < a.dist then false
  else if a.node < b.node then true
  else if b.node < a.node then false
  else listStrLe a.path b.path

/-- Extract the minimum entry under `entryLe` (what repeated `heappop` exposes;
ties between structurally equal entries are immaterial). -/
def popMin : List Entry → Option (Entry × List Entry)
  | [] => none
  | a :: rest =>
      match popMin rest with
      | none => some (a, [])
      | some (m, r) => if entryLe a m then some (a, rest) else some (m, a :: r)

/-- Cost of one edge under the congestion penalty of `reroute_if_needed`
(doubled when congested); plain `edge.length` when `congested = []`. -/
def effCost (congested : List String) (e : Edge) : ℚ :=
  if e.id ∈ congested then 2 * e.length else e.length

/-- The pushes produced by expanding a popped node `u`: for each adjacent edge,
skip blocked ids, resolve the traversal direction (forward always, reverse only
when not one-way), skip visited targets, check access, and push the extended
path with the accumulated cost. -/
def succEntries (l : Layout) (aircraft_class : String) (is_arrival : Bool)
    (blocked congested : List String) (u : String) (dist : ℚ) (path : List String)
    (visited : List String) : List Entry :=
  (l.get_edges_from_node u).filterMap (fun e =>
    if e.id ∈ blocked then none
    else
      let target? : Option String :=
        if e.start_node == u then some e.end_node
        else if !e.one_way then some e.start_node
        else none
      match target? with
      | none => none
      | some v =>
          if v ∈ visited then none
          else if can_access e aircraft_class is_arrival then
            some ⟨dist + effCost congested e, v, path ++ [e.id]⟩
          else none)

/-- The Dijkstra loop with fuel.  Result `some r?` is the Python return value;
`none` is fuel exhaustion, which `dijkstraFuel` rules out. -/
def dijkstraLoop (l : Layout) (aircraft_class : String) (is_arrival : Bool)
    (blocked congested : List String) (origin_id destination_id : String) :
    Nat → List Entry → List String → Option (Option Route)
  | 0, _, _ => none
  | fuel + 1, pq, visited =>
      match popMin pq with
      | none => some none
      | some (ent, rest) =>
          if ent.node ∈ visited then
            dijkstraLoop l aircraft_class is_arrival blocked congested
              origin_id destination_id fuel rest visited
          else if ent.node == destination_id then
            some (some ⟨ent.path, origin_id, destination_id, ent.dist⟩)
          else
            dijkstraLoop l aircraft_class is_arrival blocked congested
              origin_id destination_id fuel
              (rest ++ succEntries l aircraft_class is_arrival blocked congested
                ent.node ent.dist ent.path (ent.node :: visited))
              (ent.node :: visited)

/-- Every node id a heap entry can carry: the origin and all edge endpoints. -/
def nodeUniverse (l : Layout) (origin_id : String) : List String :=
  origin_id :: l.edges.flatMap (fun e => [e.start_node, e.end_node])

/-- A fuel bound exceeding the loop's iteration count (proved sufficient). -/
def dijkstraFuel (l : Layout) (origin_id : String) : Nat :=
  (nodeUniverse l origin_id).dedup.length * (2 * l.edges.length + 1) + 2

/-- The Dijkstra phase of `Router.find_route` (the cache-miss branch): check
both endpoints exist, then run the loop from `[(0.0, origin_id, [])]`. -/
def findRouteDijkstra (l : Layout) (origin_id destination_id : String)
    (aircraft_class : String) (is_arrival : Bool) : Option Route :=
  if (l.get_node origin_id).isNone then none
  else if (l.get_node destination_id).isNone then none
  else
    match dijkstraLoop l aircraft_class is_arrival [] [] origin_id destination_id
      (dijkstraFuel l origin_id) [⟨0, origin_id, []⟩] [] with
    | some r? => r?
    | none => none

/-- The route cache (`RouteCache`), keyed by
`(origin, destination, aircraft_class, is_arrival)`. -/
structure RouteCache where
  routes : List ((String × String × String × Bool) × Route) := []
deriving Repr

def RouteCache.lookup (c : RouteCache) (k : String × String × String × Bool) :
    Option Route :=
  (c.routes.find? (fun p => p.fst == k)).map Prod.snd

/-- A router (`Router`): the layout and its cache. -/
structure Router where
  layout : Layout
  cache : RouteCache := {}
deriving Repr

/-- `Router.find_route`: cache probe, then Dijkstra. -/
def Router.find_route (r : Router) (origin_id destination_id : String)
    (aircraft_class : String) (is_arrival : Bool) : Option Route :=
  match r.cache.lookup (origin_id, destination_id, aircraft_class, is_arrival) with
  | some route => some route
  | none => findRouteDijkstra r.layout origin_id destination_id aircraft_class is_arrival

/-- `Router.get_route`: cache probe, then `find_route`. -/
def Router.get_route (r : Router) (origin_id destination_id : String)
    (aircraft_class : String) (is_arrival : Bool) : Option Route :=
  match r.cache.lookup (origin_id, destination_id, aircraft_class, is_arrival) with
  | some route => some route
  | none => r.find_route origin_id destination_id aircraft_class is_arrival

/-- `Router.reroute_if_needed`: keep the route (`none`) when no remaining edge
is blocked; otherwise rerun Dijkstra from the current node, skipping blocked
edges and doubling congested costs. -/
def Router.reroute_if_needed (r : Router) (current_node_id : String)
    (original_route : Route) (current_edge_idx : Nat) (aircraft_class : String)
    (is_arrival : Bool) (blocked_edges congested_edges : List String) : Option Route :=
  let remaining_edges := original_route.edges.drop current_edge_idx
  let needs_reroute := remaining_edges.any (fun eid => eid ∈ blocked_edges)
  if !needs_reroute then none
  else
    match dijkstraLoop r.layout aircraft_class is_arrival blocked_edges congested_edges
      current_node_id original_route.destination_node
      (dijkstraFuel r.layout current_node_id) [⟨0, current_node_id, []⟩] [] with
    | some r? => r?
    | none => none

/-- `Router.get_active_runway_ends(wind_direction)`: runway ends whose name or
id contains the active direction string; all runway ends when none match. -/
def Router.get_active_runway_ends (r : Router) (wind_direction : ℚ) : List Node :=
  let runway_ends := r.layout.get_runway_ends
  let active := get_active_runway_direction wind_direction
  let active_ends := runway_ends.filter (fun n =>
    strContains n.name active || strContains n.id active)
  if active_ends.isEmpty then runway_ends else active_ends

def Router.get_departure_destinations (r : Router) (wind_direction : ℚ) : List Node :=
  r.get_active_runway_ends wind_direction

def Router.get_arrival_start_points (r : Router) (wind_direction : ℚ) : List Node :=
  r.get_active_runway_ends wind_direction

/-! ### Specification apparatus for the route-finding claim

The claim speaks of "paths from `o` to `d` using only permitted edges, in
legal direction".  `stepRel` is one legal traversal exactly as the loop can
take it: the edge is stored in the layout, not in the blocked set,
access-permitted, and traversed forward from its start node, or in reverse —
only when it is not one-way — from its end node (the forward branch shadows
the reverse one when both apply, mirroring the `if`/`elif` in the source, and
reverse traversal additionally requires adjacency through the end node, which
is what `_edges_from` records).  `IsPath` chains such steps; `routeCost`
prices an id list through the edge dict with the congestion-doubled cost,
which is the plain length sum when the congested set is empty.

`DijkstraInv` is the loop invariant used to settle the claim: every heap
entry carries a real walk and its true cost; the ghost list `D` assigns every
visited node a settled cost that lower-bounds every walk to it; every edge
out of a settled node into unvisited territory is covered by a heap entry;
the origin is settled or still queued at cost 0; the destination is never
marked visited.  `dijkstraMeasure` is the termination measure showing the
chosen fuel suffices. -/

/-- One legal traversal step from node `u` over edge `e` to node `v`. -/
def stepRel (l : Layout) (aircraft_class : String) (is_arrival : Bool)
    (blocked : List String) (u : String) (e : Edge) (v : String) : Prop :=
  e ∈ l.edges ∧ e.id ∉ blocked ∧ can_access e aircraft_class is_arrival = true ∧
  ((e.start_node = u ∧ v = e.end_node) ∨
   (e.start_node ≠ u ∧ e.one_way = false ∧ e.end_node = u ∧ v = e.start_node))

/-- A legal walk: the edge ids traverse in order from `u` to the final node,
each step legal per `stepRel`. -/
inductive IsPath (l : Layout) (aircraft_class : String) (is_arrival : Bool)
    (blocked : List String) : String → List String → String → Prop
  | nil (u : String) : IsPath l aircraft_class is_arrival blocked u [] u
  | cons {u v w : String} {e : Edge} {rest : List String} :
      stepRel l aircraft_class is_arrival blocked u e v →
      IsPath l aircraft_class is_arrival blocked v rest w →
      IsPath l aircraft_class is_arrival blocked u (e.id :: rest) w

/-- Cost of one edge id: the congestion-adjusted length of the edge the id
resolves to (an id resolving to nothing prices at zero). -/
def idCost (l : Layout) (congested : List String) (eid : String) : ℚ :=
  match l.get_edge eid with
  | some e => effCost congested e
  | none => 0

/-- Cost of an id list: the sum of its ids' costs. -/
def routeCost (l : Layout) (congested : List String) (ids : List String) : ℚ :=
  (ids.map (idCost l congested)).sum

/-- The Dijkstra loop invariant over the heap `pq`, the visited set and the
ghost settled-cost list `D`. -/
structure DijkstraInv (l : Layout) (aircraft_class : String) (is_arrival : Bool)
    (blocked congested : List String) (o d : String)
    (pq : List Entry) (visited : List String) (D : List (String × ℚ)) : Prop where
  entries_ok : ∀ ent ∈ pq,
    IsPath l aircraft_class is_arrival blocked o ent.path ent.node ∧
    ent.dist = routeCost l congested ent.path
  settled_keys : ∀ z ∈ visited, ∃ dz, (z, dz) ∈ D
  keys_settled : ∀ p ∈ D, p.1 ∈ visited
  settled_opt : ∀ p ∈ D, ∀ ids,
    IsPath l aircraft_class is_arrival blocked o ids p.1 →
    p.2 ≤ routeCost l congested ids
  settled_relax : ∀ p ∈ D, ∀ e v,
    stepRel l aircraft_class is_arrival blocked p.1 e v → v ∉ visited →
    ∃ ent ∈ pq, ent.node = v ∧ ent.dist ≤ p.2 + effCost congested e
  origin_cover : o ∈ visited ∨ ∃ ent ∈ pq, ent.node = o ∧ ent.dist = 0
  dest_unvisited : d ∉ visited

/-- Termination measure of the loop: unvisited universe nodes weighted by the
maximal heap growth of one expansion, plus the heap size. -/
def dijkstraMeasure (l : Layout) (o : String) (pq : List Entry)
    (visited : List String) : Nat :=
  ((nodeUniverse l o).dedup.filter (fun z => z ∉ visited)).length *
    (2 * l.edges.length + 1) + pq.length

/-! ## Spawning (`spawning.py`) -/

/-- Flight status (`FlightStatus`). -/
inductive FlightStatus
  | scheduled | taxiing_out | taking_off | departed | landing | taxiing_in | parked
deriving DecidableEq, Repr

/-- An aircraft (`Aircraft`).  `wait_start_time` and `taxi_time` are the
attributes the movement kernel attaches dynamically (`hasattr` probes model as
`Option`). -/
structure Aircraft where
  id : String
  aircraft_class : String
  is_arrival : Bool
  route : Option Route := none
  current_edge_idx : Nat := 0
  position_on_edge : ℚ := 0
  speed : ℚ := 0
  status : FlightStatus := .scheduled
  gate_id : Option String := none
  spawning_time : ℚ := 0
  completion_time : Option ℚ := none
  wait_start_time : Option ℚ := none
  taxi_time : Option ℚ := none
deriving DecidableEq, Repr

/-- The `current_edge_id` property. -/
def Aircraft.current_edge_id (a : Aircraft) : Option String :=
  match a.route with
  | some r => if a.current_edge_idx < r.edges.length
      then r.edges.get? a.current_edge_idx else none
  | none => none

/-- `f"DEP_{uuid.uuid4().hex[:6].upper()}"`: the id is built from operating
system entropy (`uuid_hex`), not from any `random.Random` generator.
(`upper()` is applied characterwise; the hex alphabet is ASCII.) -/
def mkSpawnId (pref uuid_hex : String) : String :=
  pref ++ String.mk ((uuid_hex.toList.take 6).map Char.toUpper)

/-- `spawn_departures(layout, params, capacity_state, router, time, dt)`.

`uuid_hex` is the OS entropy consumed by `uuid.uuid4()` for the aircraft id of
this call (at most one aircraft is spawned per call).  The `if not gate_id`
guard is Python truthiness: it aborts both when `assign_gate` returned `None`
and when it returned the empty string — in the latter case the gate was
reserved and is not released. -/
def spawn_departures (_layout : Layout) (params : SimulationParams)
    (capacity_state : CapacityState) (router : Router) (time dt : ℚ)
    (rng : PyRng) (uuid_hex : String) : List Aircraft × CapacityState × PyRng :=
  let rr := params.get_spawn_rate false rng
  if rr.fst ≤ 0 then ([], capacity_state, rr.snd)
  else
    let expected_spawns := rr.fst / 60 * dt
    let ur := rr.snd.random
    if expected_spawns < ur.fst then ([], capacity_state, ur.snd)
    else
      let sr := params.sample_aircraft_class false ur.snd
      let ga := capacity_state.assign_gate "PENDING" none none (some sr.fst)
      match ga.fst with
      | none => ([], ga.snd, sr.snd)
      | some gate_id =>
          if gate_id == "" then ([], ga.snd, sr.snd)
          else
            let wr := params.get_wind sr.snd
            match router.get_departure_destinations wr.fst.snd with
            | [] => ([], ga.snd.release_gate gate_id, wr.snd)
            | d :: ds =>
                let dr := wr.snd.choiceNE d ds
                match router.get_route gate_id dr.fst.id sr.fst false with
                | none => ([], ga.snd.release_gate gate_id, dr.snd)
                | some route =>
                    let aircraft_id := mkSpawnId "DEP_" uuid_hex
                    let aircraft : Aircraft :=
                      { id := aircraft_id, aircraft_class := sr.fst,
                        is_arrival := false, route := some route,
                        status := .taxiing_out, gate_id := some gate_id,
                        spawning_time := time }
                    ([aircraft], ga.snd.setGateOccupant gate_id aircraft_id, dr.snd)

/-- `spawn_arrivals(layout, params, capacity_state, router, time, dt)`; the
`if not gate_id` guard is the same truthiness check as in
`spawn_departures`. -/
def spawn_arrivals (_layout : Layout) (params : SimulationParams)
    (capacity_state : CapacityState) (router : Router) (time dt : ℚ)
    (rng : PyRng) (uuid_hex : String) : List Aircraft × CapacityState × PyRng :=
  let rr := params.get_spawn_rate true rng
  if rr.fst ≤ 0 then ([], capacity_state, rr.snd)
  else
    let expected_spawns := rr.fst / 60 * dt
    let ur := rr.snd.random
    if expected_spawns < ur.fst then ([], capacity_state, ur.snd)
    else
      let sr := params.sample_aircraft_class true ur.snd
      let wr := params.get_wind sr.snd
      match router.get_arrival_start_points wr.fst.snd with
      | [] => ([], capacity_state, wr.snd)
      | s :: ss =>
          let nr := wr.snd.choiceNE s ss
          let ga := capacity_state.assign_gate "PENDING" none none (some sr.fst)
          match ga.fst with
          | none => ([], ga.snd, nr.snd)
          | some gate_id =>
              if gate_id == "" then ([], ga.snd, nr.snd)
              else
                match router.get_route nr.fst.id gate_id sr.fst true with
                | none => ([], ga.snd.release_gate gate_id, nr.snd)
                | some route =>
                    let aircraft_id := mkSpawnId "ARR_" uuid_hex
                    let aircraft : Aircraft :=
                      { id := aircraft_id, aircraft_class := sr.fst,
                        is_arrival := true, route := some route,
                        status := .landing, gate_id := some gate_id,
                        spawning_time := time }
                    ([aircraft], ga.snd.setGateOccupant gate_id aircraft_id, nr.snd)

/-! ## Movement kernel (`model_core.py`) -/

/-- NaSch constants. -/
def DEFAULT_ACCELERATION : ℚ := 2

def DEFAULT_P_SLOW : ℚ := 1/5

/-- The complete simulation state (`SimulationState`). -/
structure SimulationState where
  aircraft : List Aircraft := []
  time : ℚ := 0
  completed_aircraft : List Aircraft := []
deriving DecidableEq, Repr

/-- `get_aircraft_ahead(current_aircraft, all_aircraft, layout)`: nearest
aircraft ahead on the same edge or on the next route edge.  `none` for the gap
models `float('inf')`. -/
def get_aircraft_ahead (current_aircraft : Aircraft) (all_aircraft : List Aircraft)
    (layout : Layout) : Option Aircraft × Option ℚ :=
  match current_aircraft.route with
  | none => (none, none)
  | some route =>
      let current_pos := current_aircraft.position_on_edge
      let current_edge : Option Edge :=
        match current_aircraft.current_edge_id with
        | some eid => if eid == "" then none else layout.get_edge eid
        | none => none
      all_aircraft.foldl (fun (acc : Option Aircraft × Option ℚ) other =>
        if other.id == current_aircraft.id then acc
        else if other.status == .departed || other.status == .parked then acc
        else if other.route.isNone then acc
        else if other.current_edge_id == current_aircraft.current_edge_id then
          if current_pos < other.position_on_edge then
            let gap := other.position_on_edge - current_pos
            match acc.snd with
            | some g => if gap < g then (some other, some gap) else acc
            | none => (some other, some gap)
          else acc
        else if current_aircraft.current_edge_idx + 1 < route.edges.length then
          let next_edge_id := route.edges.get? (current_aircraft.current_edge_idx + 1)
          if other.current_edge_id == next_edge_id then
            match current_edge with
            | some ce =>
                let gap := (ce.length - current_pos) + other.position_on_edge
                match acc.snd with
                | some g => if gap < g then (some other, some gap) else acc
                | none => (some other, some gap)
            | none => acc
          else acc
        else acc) (none, none)

/-- `is_at_hold_point(aircraft, layout)`: near the end of the current edge
(`pos ≥ 0.95 · length`) and the edge's end node is a hold point. -/
def is_at_hold_point (aircraft : Aircraft) (layout : Layout) : Bool × Option String :=
  match aircraft.route with
  | none => (false, none)
  | some route =>
      if route.edges.length ≤ aircraft.current_edge_idx then (false, none)
      else
        match route.edges.get? aircraft.current_edge_idx with
        | none => (false, none)
        | some edge_id =>
            match layout.get_edge edge_id with
            | none => (false, none)
            | some edge =>
                if edge.length * (19/20) ≤ aircraft.position_on_edge then
                  match layout.get_node edge.end_node with
                  | some end_node =>
                      if end_node.node_type == .hold_point then (true, some end_node.id)
                      else (false, none)
                  | none => (false, none)
                else (false, none)

/-- `can_proceed_from_hold(aircraft, layout, capacity_state, params)`.  When the
next route edge is a runway, **every** runway must be available (the loop
returns `False` on any occupied runway); in every case the next edge must not
be full. -/
def can_proceed_from_hold (aircraft : Aircraft) (layout : Layout)
    (capacity_state : CapacityState) (_params : SimulationParams) : Bool :=
  match aircraft.route with
  | none => true
  | some route =>
      let next_idx := aircraft.current_edge_idx + 1
      if route.edges.length ≤ next_idx then true
      else
        match route.edges.get? next_idx with
        | none => true
        | some next_edge_id =>
            match layout.get_edge next_edge_id with
            | none => true
            | some next_edge =>
                if next_edge.edge_type == .runway &&
                    capacity_state.runways.any (fun r => !r.is_available) then false
                else if capacity_state.is_edge_full next_edge_id then false
                else true

/-- Occupy the first available runway (the release path of the hold gate). -/
def occupyFirstAvailable (c : CapacityState) (aircraft_id : String) (is_arrival : Bool) :
    CapacityState :=
  match c.runways.find? RunwayStatus.is_available with
  | some r =>
      { c with runways := c.runways.map (fun r' =>
          if r'.runway_id == r.runway_id then r'.occupy aircraft_id is_arrival else r') }
  | none => c

/-- Release every runway whose `current_aircraft` is the given id. -/
def releaseRunwaysOf (c : CapacityState) (aircraft_id : String) : CapacityState :=
  { c with runways := c.runways.map (fun r =>
      if r.current_aircraft == some aircraft_id then r.release else r) }

/-- The `--- NaSch Rules ---` section of `nasch_step`: accelerate, gap-brake,
random-brake, advance.  Returns the aircraft with its new speed and position,
and the generator (consumed only when `v > 0`, by Python's short-circuit
`v > 0 and rng.random() < p_slow`). -/
def naschAdvance (aircraft : Aircraft) (all_aircraft : List Aircraft) (layout : Layout)
    (vmax : ℚ) (dt : ℚ) (rng : PyRng) : Aircraft × PyRng :=
  let v := min (aircraft.speed + DEFAULT_ACCELERATION * dt) vmax
  let ag := get_aircraft_ahead aircraft all_aircraft layout
  let v :=
    match ag with
    | (some _, some gap) =>
        let safe_gap := max 0 (gap - 10)
        let max_safe_speed := if 0 < dt then safe_gap / dt else 0
        min v max_safe_speed
    | _ => v
  let vr :=
    if 0 < v then
      let ur := rng.random
      if ur.fst < DEFAULT_P_SLOW then (max 0 (v - DEFAULT_ACCELERATION * dt), ur.snd)
      else (v, ur.snd)
    else (v, rng)
  let aircraft := { aircraft with speed := max 0 vr.fst }
  ({ aircraft with
      position_on_edge := aircraft.position_on_edge + aircraft.speed * dt }, vr.snd)

/-- The `Check if reached end of edge` section of `nasch_step`: edge overflow,
occupancy and runway-release bookkeeping, advance to the next route edge (or
mark completion by stepping `current_edge_idx` past the end), and the status
update on entering/leaving a runway. -/
def naschTransition (aircraft : Aircraft) (layout : Layout) (route : Route)
    (edge : Edge) (edge_id : String) (capacity_state : CapacityState) :
    Aircraft × CapacityState :=
  if edge.length ≤ aircraft.position_on_edge then
    let remaining := aircraft.position_on_edge - edge.length
    let next_idx := aircraft.current_edge_idx + 1
    let capacity_state := capacity_state.remove_from_edge aircraft.id edge_id
    let capacity_state :=
      if edge.edge_type == .runway then releaseRunwaysOf capacity_state aircraft.id
      else capacity_state
    if h : next_idx < route.edges.length then
      let next_edge_id := route.edges.get ⟨next_idx, h⟩
      let capacity_state := capacity_state.add_to_edge aircraft.id next_edge_id
      let aircraft := { aircraft with
        current_edge_idx := next_idx, position_on_edge := max remaining 0 }
      let aircraft :=
        match layout.get_edge next_edge_id with
        | some next_edge =>
            if next_edge.edge_type == .runway then
              { aircraft with status :=
                  if aircraft.is_arrival then .landing else .taking_off }
            else if aircraft.status == .taking_off then
              { aircraft with status := .taxiing_out }
            else if aircraft.status == .landing then
              { aircraft with status := .taxiing_in }
            else aircraft
        | none => aircraft
      (aircraft, capacity_state)
    else
      ({ aircraft with current_edge_idx := next_idx }, capacity_state)
  else (aircraft, capacity_state)

/-- The part of `nasch_step` after the hold gate: the NaSch local update
followed by the edge transition. -/
def naschMove (aircraft : Aircraft) (all_aircraft : List Aircraft) (layout : Layout)
    (route : Route) (edge : Edge) (edge_id : String) (vmax : ℚ)
    (capacity_state : CapacityState) (dt : ℚ) (rng : PyRng) :
    Aircraft × CapacityState × PyRng :=
  let ar := naschAdvance aircraft all_aircraft layout vmax dt rng
  let ac := naschTransition ar.fst layout route edge edge_id capacity_state
  (ac.fst, ac.snd, ar.snd)

/-- `nasch_step(aircraft, all_aircraft, layout, params, capacity_state, dt, rng)`.

The updated aircraft, capacity state, and RNG are returned.  The weather used
by the speed limit resolves through `params.get_weather()` (drawing from the
run RNG only in `random` weather mode); the blocked hold branch stores a draw
in `wait_start_time` on first blocking; random braking draws only when `v > 0`
(Python's short-circuit `and`). -/
def nasch_step (aircraft : Aircraft) (all_aircraft : List Aircraft) (layout : Layout)
    (params : SimulationParams) (capacity_state : CapacityState) (dt : ℚ)
    (rng : PyRng) : Aircraft × CapacityState × PyRng :=
  if aircraft.status == .departed || aircraft.status == .parked then
    (aircraft, capacity_state, rng)
  else
    match aircraft.route with
    | none => (aircraft, capacity_state, rng)
    | some route =>
        if route.edges.length ≤ aircraft.current_edge_idx then
          (aircraft, capacity_state, rng)
        else
          match route.edges.get? aircraft.current_edge_idx with
          | none => (aircraft, capacity_state, rng)
          | some edge_id =>
              match layout.get_edge edge_id with
              | none => (aircraft, capacity_state, rng)
              | some edge =>
                  let wr := params.get_weather rng
                  let rng := wr.snd
                  let vmax := get_speed_limit_w edge aircraft.aircraft_class params wr.fst
                  let ah := is_at_hold_point aircraft layout
                  let hold_ok := ah.fst && (match ah.snd with
                    | some h => !(h == "")
                    | none => false)
                  if hold_ok then
                    let hold_id := ah.snd.getD ""
                    if !can_proceed_from_hold aircraft layout capacity_state params then
                      let ar :=
                        match aircraft.wait_start_time with
                        | none =>
                            let w := rng.random
                            ({ aircraft with wait_start_time := some w.fst }, w.snd)
                        | some _ => (aircraft, rng)
                      let aircraft := { ar.fst with speed := 0 }
                      let capacity_state :=
                        match capacity_state.findHold hold_id with
                        | some hq =>
                            if aircraft.id ∈ hq.queue then capacity_state
                            else capacity_state.setHold hold_id (fun h => h.add aircraft.id)
                        | none => capacity_state
                      (aircraft, capacity_state, ar.snd)
                    else
                      let capacity_state :=
                        let next_idx := aircraft.current_edge_idx + 1
                        if next_idx < route.edges.length then
                          match (route.edges.get? next_idx).bind layout.get_edge with
                          | some next_edge =>
                              if next_edge.edge_type == .runway then
                                occupyFirstAvailable capacity_state aircraft.id
                                  aircraft.is_arrival
                              else capacity_state
                          | none => capacity_state
                        else capacity_state
                      let capacity_state :=
                        match capacity_state.findHold hold_id with
                        | some _ => capacity_state.setHold hold_id
                            (fun h => h.remove aircraft.id)
                        | none => capacity_state
                      naschMove aircraft all_aircraft layout route edge edge_id vmax
                        capacity_state dt rng
                  else
                    naschMove aircraft all_aircraft layout route edge edge_id vmax
                      capacity_state dt rng

/-! ### The per-tick driver (`model_core.step`) -/

/-- The per-step observables dict built by `step`. -/
structure Observables where
  time : ℚ
  aircraft_count : Nat
  total_aircraft : Nat
  departures_count : Nat
  arrivals_count : Nat
  queue_length : Nat
  max_queue_length : Nat
  runways_occupied : Nat
  newly_completed : Nat
  completed_aircraft : List Aircraft
deriving DecidableEq, Repr

/-- `finish_aircraft(aircraft, time, capacity_state)`. -/
def finish_aircraft (aircraft : Aircraft) (time : ℚ) (capacity_state : CapacityState) :
    Aircraft × CapacityState :=
  let aircraft := { aircraft with completion_time := some time, speed := 0 }
  let aircraft :=
    match aircraft.taxi_time with
    | none => { aircraft with taxi_time := some (time - aircraft.spawning_time) }
    | some _ => aircraft
  let (aircraft, capacity_state) :=
    if aircraft.is_arrival then
      ({ aircraft with status := .parked }, capacity_state)
    else
      let capacity_state :=
        match aircraft.gate_id with
        | some g => if g == "" then capacity_state else capacity_state.release_gate g
        | none => capacity_state
      ({ aircraft with status := .departed }, capacity_state)
  let capacity_state := releaseRunwaysOf capacity_state aircraft.id
  let capacity_state :=
    match aircraft.current_edge_id with
    | some eid => if eid == "" then capacity_state
        else capacity_state.remove_from_edge aircraft.id eid
    | none => capacity_state
  (aircraft, capacity_state)

/-- Strict front-to-back order on the sort key `(current_edge_idx, position_on_edge)`. -/
def aircraftKeyLt (a b : Aircraft) : Bool :=
  a.current_edge_idx < b.current_edge_idx ||
    (a.current_edge_idx == b.current_edge_idx && a.position_on_edge < b.position_on_edge)

/-- Stable descending insertion: the inserted element goes before the first
element whose key is not strictly greater. -/
def insertFrontToBack (a : Aircraft) : List Aircraft → List Aircraft
  | [] => [a]
  | b :: bs => if aircraftKeyLt a b then b :: insertFrontToBack a bs else a :: b :: bs

/-- `sorted(aircraft, key=lambda a: (idx, pos), reverse=True)`: the stable
descending sort (leaders first; equal keys keep list order). -/
def sortFrontToBack : List Aircraft → List Aircraft
  | [] => []
  | a :: as => insertFrontToBack a (sortFrontToBack as)

/-- Should a completed aircraft be evicted this tick
(`if aircraft.completion_time:` then `new_time - completion_time > 60`)? -/
def evictNow (aircraft : Aircraft) (new_time : ℚ) : Bool :=
  match aircraft.completion_time with
  | some c => !(c == 0) && 60 < new_time - c
  | none => false

/-- The per-aircraft loop of `step`, front-to-back over the sorted list.
`done` is the already-processed prefix (the in-place updates earlier iterations
made to the shared list, visible to later gap computations); `active`,
`evicted` and `newly` are the `active_aircraft`, evicted-to-`completed_aircraft`
and `newly_completed` accumulators. -/
def stepLoop (layout : Layout) (params : SimulationParams) (dt new_time : ℚ) :
    List Aircraft → List Aircraft → List Aircraft → List Aircraft → List Aircraft →
    CapacityState → PyRng →
    List Aircraft × List Aircraft × List Aircraft × CapacityState × PyRng
  | [], _done, active, evicted, newly, cap, rng => (active, evicted, newly, cap, rng)
  | ac :: rest, done, active, evicted, newly, cap, rng =>
      if ac.status == .departed || ac.status == .parked then
        if evictNow ac new_time then
          stepLoop layout params dt new_time rest (done ++ [ac]) active
            (evicted ++ [ac]) newly cap rng
        else
          stepLoop layout params dt new_time rest (done ++ [ac]) (active ++ [ac])
            evicted newly cap rng
      else if (match ac.route with
        | some r => decide (r.edges.length ≤ ac.current_edge_idx)
        | none => false) then
        let (ac', cap') := finish_aircraft ac new_time cap
        stepLoop layout params dt new_time rest (done ++ [ac']) (active ++ [ac'])
          evicted (newly ++ [ac']) cap' rng
      else
        let (ac1, cap1, rng1) := nasch_step ac (done ++ ac :: rest) layout params cap dt rng
        if (match ac1.route with
          | some r => decide (r.edges.length ≤ ac1.current_edge_idx)
          | none => false) then
          let (ac2, cap2) := finish_aircraft ac1 new_time cap1
          stepLoop layout params dt new_time rest (done ++ [ac2]) (active ++ [ac2])
            evicted (newly ++ [ac2]) cap2 rng1
        else
          stepLoop layout params dt new_time rest (done ++ [ac1]) (active ++ [ac1])
            evicted newly cap1 rng1

/-- Phases 3–4 of `step` (after the waiting-time update): sort, run the
per-aircraft loop, and build the observables. -/
def stepCore (state : SimulationState) (layout : Layout) (params : SimulationParams)
    (capacity_state : CapacityState) (dt : ℚ) (rng : PyRng) (new_time : ℚ) :
    SimulationState × Observables × CapacityState × PyRng :=
  let sorted_aircraft := sortFrontToBack state.aircraft
  let (active, evicted, newly, cap, rng) :=
    stepLoop layout params dt new_time sorted_aircraft [] [] [] [] capacity_state rng
  let active_non_finished := active.filter (fun a =>
    !(a.status == .departed || a.status == .parked))
  let total_queue_length := (cap.holds.map (fun h => h.queue.length)).sum
  let max_queue_length := (cap.holds.map (fun h => h.queue.length)).foldr max 0
  let runways_occupied := (cap.runways.filter (fun r => !r.is_available)).length
  let observables : Observables :=
    { time := new_time,
      aircraft_count := active_non_finished.length,
      total_aircraft := active.length,
      departures_count := (active_non_finished.filter (fun a => !a.is_arrival)).length,
      arrivals_count := (active_non_finished.filter (fun a => a.is_arrival)).length,
      queue_length := total_queue_length,
      max_queue_length := max_queue_length,
      runways_occupied := runways_occupied,
      newly_completed := newly.length,
      completed_aircraft := newly }
  ({ aircraft := active, time := new_time,
     completed_aircraft := state.completed_aircraft ++ evicted },
   observables, cap, rng)

/-- `model_core.step(state, layout, params, capacity_state, dt)`: advance time,
update hold waiting times, then run the movement loop and record observables.
The run RNG (`params._rng`) is threaded explicitly. -/
def step (state : SimulationState) (layout : Layout) (params : SimulationParams)
    (capacity_state : CapacityState) (dt : ℚ) (rng : PyRng) :
    SimulationState × Observables × CapacityState × PyRng :=
  let new_time := state.time + dt
  let capacity_state := capacity_state.update_hold_waiting_times dt
  stepCore state layout params capacity_state dt rng new_time

/-! ## Observer (`metrics.py`): the per-tick `record` -/

/-- A completed-flight record (the `stats` dict of `record_flight_completion`;
`ftype` is the `"type"` key, `klass` the `"class"` key). -/
structure FlightStat where
  id : String
  ftype : String
  klass : String
  duration : ℚ
  gate : Option String
  spawning_time : ℚ
  completion_time : ℚ
  taxi_time : Option ℚ := none
deriving DecidableEq, Repr

/-- The metric collector state (`MetricsCollector`); the six time series are
named fields, the event log (never written by the core) is omitted. -/
structure MetricsCollector where
  ts_aircraft_on_ground : List (ℚ × ℚ) := []
  ts_departures_on_ground : List (ℚ × ℚ) := []
  ts_arrivals_on_ground : List (ℚ × ℚ) := []
  ts_queue_length : List (ℚ × ℚ) := []
  ts_max_queue_length : List (ℚ × ℚ) := []
  ts_runways_occupied : List (ℚ × ℚ) := []
  completed_flights : List FlightStat := []
  taxi_times : List ℚ := []
  taxi_times_departure : List ℚ := []
  taxi_times_arrival : List ℚ := []
  wait_times : List ℚ := []
  throughput_window : ℚ := 300
  completions_by_window : List (Int × Nat) := []
  sim_duration : ℚ := 0
  start_time : ℚ := 0
deriving DecidableEq, Repr

/-- `record_flight_completion(aircraft)`. -/
def MetricsCollector.record_flight_completion (m : MetricsCollector)
    (aircraft : Aircraft) : MetricsCollector :=
  match aircraft.completion_time with
  | none => m
  | some completion =>
      let duration := completion - aircraft.spawning_time
      let (stats_taxi, taxi_val) :=
        match aircraft.taxi_time with
        | some t => (some t, t)
        | none => (none, duration)
      let stats : FlightStat :=
        { id := aircraft.id,
          ftype := if aircraft.is_arrival then "arrival" else "departure",
          klass := aircraft.aircraft_class,
          duration := duration,
          gate := aircraft.gate_id,
          spawning_time := aircraft.spawning_time,
          completion_time := completion,
          taxi_time := stats_taxi }
      let m := { m with taxi_times := m.taxi_times ++ [taxi_val] }
      let m :=
        if aircraft.is_arrival then
          { m with taxi_times_arrival := m.taxi_times_arrival ++ [taxi_val] }
        else
          { m with taxi_times_departure := m.taxi_times_departure ++ [taxi_val] }
      let m := { m with completed_flights := m.completed_flights ++ [stats] }
      let window_idx : Int := ⌊completion / m.throughput_window⌋
      let cbw := alSet m.completions_by_window window_idx
        (alGet m.completions_by_window window_idx 0 + 1)
      { m with completions_by_window := cbw }

/-- `MetricsCollector.record(time, observables)`: append each time-series point
and fold in the newly completed flights. -/
def MetricsCollector.record (m : MetricsCollector) (time : ℚ) (obs : Observables) :
    MetricsCollector :=
  let m := { m with ts_aircraft_on_ground :=
      m.ts_aircraft_on_ground ++ [(time, (obs.aircraft_count : ℚ))] }
  let m := { m with ts_departures_on_ground :=
      m.ts_departures_on_ground ++ [(time, (obs.departures_count : ℚ))] }
  let m := { m with ts_arrivals_on_ground :=
      m.ts_arrivals_on_ground ++ [(time, (obs.arrivals_count : ℚ))] }
  let m := { m with ts_queue_length :=
      m.ts_queue_length ++ [(time, (obs.queue_length : ℚ))] }
  let m := { m with ts_max_queue_length :=
      m.ts_max_queue_length ++ [(time, (obs.max_queue_length : ℚ))] }
  let m := { m with ts_runways_occupied :=
      m.ts_runways_occupied ++ [(time, (obs.runways_occupied : ℚ))] }
  obs.completed_aircraft.foldl MetricsCollector.record_flight_completion m

/-! ## The driver loop body (`runner.run_simulation`, steps B–D of one tick) -/

/-- Register newly spawned aircraft on the first edges of their routes. -/
def registerFirstEdges (acs : List Aircraft) (cap : CapacityState) : CapacityState :=
  acs.foldl (fun c ac =>
    match ac.route with
    | some r =>
        match r.edges.head? with
        | some e0 => c.add_to_edge ac.id e0
        | none => c
    | none => c) cap

/-- One iteration of the main simulation loop as the source orders it:
spawn departures (and register them), spawn arrivals (and register them),
step the model core, record at the pre-tick time. -/
def runTick (layout : Layout) (params : SimulationParams) (router : Router)
    (state : SimulationState) (cap : CapacityState) (metrics : MetricsCollector)
    (rng : PyRng) (uuid_dep uuid_arr : String) (dt : ℚ) :
    SimulationState × CapacityState × MetricsCollector × PyRng :=
  let current_time := state.time
  let sd := spawn_departures layout params cap router current_time dt rng uuid_dep
  let state1 := { state with aircraft := state.aircraft ++ sd.1 }
  let cap1 := registerFirstEdges sd.1 sd.2.1
  let sa := spawn_arrivals layout params cap1 router current_time dt sd.2.2 uuid_arr
  let state2 := { state1 with aircraft := state1.aircraft ++ sa.1 }
  let cap2 := registerFirstEdges sa.1 sa.2.1
  let st := step state2 layout params cap2 dt sa.2.2
  let metrics2 := metrics.record current_time st.2.1
  (st.1, st.2.2.1, metrics2, st.2.2.2)

/-- The tick in the order the specification states it: `advance_waiting` first,
then spawning, then movement (the rest of `step`), then recording. -/
def specOrderTick (layout : Layout) (params : SimulationParams) (router : Router)
    (state : SimulationState) (cap : CapacityState) (metrics : MetricsCollector)
    (rng : PyRng) (uuid_dep uuid_arr : String) (dt : ℚ) :
    SimulationState × CapacityState × MetricsCollector × PyRng :=
  let current_time := state.time
  let capA := cap.update_hold_waiting_times dt
  let sd := spawn_departures layout params capA router current_time dt rng uuid_dep
  let state1 := { state with aircraft := state.aircraft ++ sd.1 }
  let cap1 := registerFirstEdges sd.1 sd.2.1
  let sa := spawn_arrivals layout params cap1 router current_time dt sd.2.2 uuid_arr
  let state2 := { state1 with aircraft := state1.aircraft ++ sa.1 }
  let cap2 := registerFirstEdges sa.1 sa.2.1
  let st := stepCore state2 layout params cap2 dt sa.2.2 (state2.time + dt)
  let metrics2 := metrics.record current_time st.2.1
  (st.1, st.2.2.1, metrics2, st.2.2.2)

/-! ## Concrete fixtures

Small layouts and states used to evaluate the embedded simulator on explicit
inputs: a linear taxi path `X --t1--> H --r1--> E` with a hold point `H`
before the runway edge `r1`, and a one-gate layout for the spawner. -/

/-- Hold-gate fixture layout: taxiway `t1` from `X` to hold point `H`, runway
`r1` from `H` to runway end `E`. -/
def fixLayoutHold : Layout :=
  { nodes := [Node.mk "X" .intersection 0 0 "" none none,
              Node.mk "H" .hold_point 100 0 "" none none,
              Node.mk "E27" .runway_end 600 0 "" none none],
    edges := [Edge.mk "t1" .taxiway "X" "H" 100 .both false none none,
              Edge.mk "r1" .runway "H" "E27" 500 .both false none none] }

/-- A departure 96 m along `t1` (within the last 5% of the 100 m edge). -/
def fixAircraftHold : Aircraft :=
  { id := "DEP_T1", aircraft_class := "medium", is_arrival := false,
    route := some (Route.mk ["t1", "r1"] "X" "E27" 600),
    current_edge_idx := 0, position_on_edge := 96, speed := 5,
    status := .taxiing_out, gate_id := some "G1", spawning_time := 0 }

/-- Two runways, one occupied by another aircraft and one clear; the hold `H`
registered and empty; `r1` empty. -/
def fixCapHold : CapacityState :=
  { gates := [],
    holds := [HoldQueue.mk "H" [] []],
    runways := [RunwayStatus.mk "RWY_x" .occupied_departure (some "OTHER") none,
                RunwayStatus.mk "RWY_y" .clear none none],
    edges := [EdgeOccupancy.mk "t1" ["DEP_T1"] 10, EdgeOccupancy.mk "r1" [] 10] }

/-- Spawner fixture layout: one gate `G`, one runway end `RE27`, a taxiway
between them, and a runway edge so the layout is structurally sensible. -/
def fixLayoutSpawn : Layout :=
  { nodes := [Node.mk "G" .gate 0 0 "" none none,
              Node.mk "RE27" .runway_end 50 0 "" none none,
              Node.mk "RE09" .runway_end 550 0 "" none none],
    edges := [Edge.mk "t1" .taxiway "G" "RE27" 50 .both false none none,
              Edge.mk "r1" .runway "RE27" "RE09" 500 .both false none none] }

/-- One free gate `G`. -/
def fixCapSpawn : CapacityState :=
  { gates := [GateStatus.mk "G" "default" none .free none],
    holds := [], runways := [RunwayStatus.mk "RWY_r1" .clear none none],
    edges := [EdgeOccupancy.mk "t1" [] 10, EdgeOccupancy.mk "r1" [] 10] }

/-- Parameters for the spawn fixture: departure rate 60/min so the Bernoulli
trial always fires at `dt = 1`. -/
def fixParamsSpawn : SimulationParams :=
  { departure_spawn_rate := { value := .num 60 } }

/-- Capacity fixture with a single free gate whose id is the empty string — a
legal dict key that `Layout.validate` never rejects. -/
def fixCapEmptyGate : CapacityState :=
  { gates := [GateStatus.mk "" "default" none .free none],
    holds := [], runways := [], edges := [] }

/-- Routing fixture with nonnegative lengths: one-way edges `e1 : A→B` of
length 1, `e2 : A→C` of length 10, `e3 : C→B` of length 20. -/
def fixLayoutPos : Layout :=
  { nodes := [Node.mk "A" .intersection 0 0 "" none none,
              Node.mk "B" .intersection 100 0 "" none none,
              Node.mk "C" .intersection 50 50 "" none none],
    edges := [Edge.mk "e1" .taxiway "A" "B" 1 .both true none none,
              Edge.mk "e2" .taxiway "A" "C" 10 .both true none none,
              Edge.mk "e3" .taxiway "C" "B" 20 .both true none none] }

/-- Routing fixture with a negative-length edge: one-way edges `e1 : A→B` of
length 1, `e2 : A→C` of length 10, `e3 : C→B` of length −20; the path
`e2, e3` costs −10, cheaper than the direct edge. -/
def fixLayoutNeg : Layout :=
  { nodes := [Node.mk "A" .intersection 0 0 "" none none,
              Node.mk "B" .intersection 100 0 "" none none,
              Node.mk "C" .intersection 50 50 "" none none],
    edges := [Edge.mk "e1" .taxiway "A" "B" 1 .both true none none,
              Edge.mk "e2" .taxiway "A" "C" 10 .both true none none,
              Edge.mk "e3" .taxiway "C" "B" (-20) .both true none none] }

/-! ## Proofs -/

/-! ### C10: `HoldQueue.add` on a present id is the identity -/

/-- C10: `HoldQueue.add` is idempotent and preserves accumulated waiting time:
adding an aircraft id that is already queued leaves the hold queue — its order
and every `waiting_times` entry included — completely unchanged (in particular
the id's accumulated waiting time is not reset to zero). -/
theorem holdQueue_add_present_id_is_noop (h : HoldQueue) (aircraft_id : String)
    (hmem : aircraft_id ∈ h.queue) : h.add aircraft_id = h := by
  unfold HoldQueue.add
  simp [hmem]

/-- Witness for `holdQueue_add_present_id_is_noop` at a concrete queue with
accumulated waiting time 5. -/
theorem holdQueue_add_present_id_is_noop_witness :
    "AC1" ∈ (HoldQueue.mk "H1" ["AC1", "AC2"] [("AC1", 5), ("AC2", 2)]).queue ∧
      (HoldQueue.mk "H1" ["AC1", "AC2"] [("AC1", 5), ("AC2", 2)]).add "AC1" =
        HoldQueue.mk "H1" ["AC1", "AC2"] [("AC1", 5), ("AC2", 2)] :=
  ⟨by decide, holdQueue_add_present_id_is_noop _ _ (by decide)⟩

/-! ### C7: `reroute_if_needed` keeps the route when nothing ahead is blocked -/

/-- C7: if none of the remaining edges of the original route (from the current
index onward) is in the blocked set, `reroute_if_needed` returns `none` and the
current route is kept. -/
theorem reroute_if_needed_keeps_route_when_unblocked (r : Router)
    (current_node_id : String) (original_route : Route) (current_edge_idx : Nat)
    (aircraft_class : String) (is_arrival : Bool) (blocked_edges congested_edges : List String)
    (hb : ∀ eid ∈ original_route.edges.drop current_edge_idx, eid ∉ blocked_edges) :
    r.reroute_if_needed current_node_id original_route current_edge_idx aircraft_class
      is_arrival blocked_edges congested_edges = none := by
  unfold Router.reroute_if_needed
  have hany : (original_route.edges.drop current_edge_idx).any
      (fun eid => decide (eid ∈ blocked_edges)) = false := by
    rw [List.any_eq_false]
    intro a ha
    simpa using hb a ha
  simp [hany]

/-- Witness for `reroute_if_needed_keeps_route_when_unblocked`: a route whose
only remaining edge is not blocked (the blocked edge lies behind the index). -/
theorem reroute_if_needed_keeps_route_when_unblocked_witness :
    (∀ eid ∈ (Route.mk ["e1", "e2"] "A" "C" 2).edges.drop 1, eid ∉ ["e1"]) ∧
      (Router.mk (Layout.mk [] []) {}).reroute_if_needed "B" (Route.mk ["e1", "e2"] "A" "C" 2)
        1 "medium" false ["e1"] [] = none :=
  ⟨by decide, reroute_if_needed_keeps_route_when_unblocked _ _ _ _ _ _ _ _ (by decide)⟩

/-! ### C5: runway occupation is exclusive -/

/-- C5: runway mutual exclusion at `occupy_runway`.  For the runway record
found under `runway_id`: if it is not clear, `occupy_runway` returns `false`
and the whole capacity state — the runway's `state` and `current_aircraft`
included — is unchanged; if it is clear, `occupy_runway` returns `true`, that
runway becomes `occupied_arrival`/`occupied_departure` according to the
direction with `current_aircraft` set to the occupying aircraft, and every
other runway record is unchanged.  (Each runway stores at most one
`current_aircraft` by construction of `RunwayStatus`.) -/
theorem occupy_runway_exclusive (cap : CapacityState) (aircraft_id runway_id : String)
    (is_arrival : Bool) (r : RunwayStatus)
    (hfind : cap.runways.find? (fun x => x.runway_id == runway_id) = some r) :
    (r.state ≠ .clear → cap.occupy_runway aircraft_id runway_id is_arrival = (cap, false)) ∧
    (r.state = .clear →
      (cap.occupy_runway aircraft_id runway_id is_arrival).snd = true ∧
      (∀ r' ∈ (cap.occupy_runway aircraft_id runway_id is_arrival).fst.runways,
        (r'.runway_id = runway_id →
          r'.state = (if is_arrival then .occupied_arrival else .occupied_departure) ∧
          r'.current_aircraft = some aircraft_id) ∧
        (r'.runway_id ≠ runway_id → r' ∈ cap.runways))) := by
  constructor
  · intro hne
    unfold CapacityState.occupy_runway
    rw [hfind]
    have : r.is_available = false := by
      unfold RunwayStatus.is_available
      simpa using hne
    simp [this]
  · intro hclear
    have havail : r.is_available = true := by
      unfold RunwayStatus.is_available
      simp [hclear]
    have hres : cap.occupy_runway aircraft_id runway_id is_arrival =
        ({ cap with runways := cap.runways.map (fun r' =>
            if r'.runway_id == runway_id then r'.occupy aircraft_id is_arrival else r') },
         true) := by
      unfold CapacityState.occupy_runway
      rw [hfind]
      simp [havail]
    rw [hres]
    refine ⟨rfl, ?_⟩
    intro r' hr'
    simp only [List.mem_map] at hr'
    obtain ⟨x, hx, hfx⟩ := hr'
    by_cases hid : x.runway_id == runway_id
    · rw [if_pos hid] at hfx
      constructor
      · intro _
        subst hfx
        unfold RunwayStatus.occupy
        exact ⟨rfl, rfl⟩
      · intro hne
        exfalso
        apply hne
        subst hfx
        unfold RunwayStatus.occupy
        simpa using hid
    · rw [if_neg hid] at hfx
      subst hfx
      exact ⟨fun h => absurd (by simpa using h) (by simpa using hid), fun _ => hx⟩

/-- Witness for `occupy_runway_exclusive`: a two-runway state with the first
runway occupied; occupying it again fails without change, and occupying the
clear one succeeds. -/
theorem occupy_runway_exclusive_witness :
    ((CapacityState.mk [] [] [RunwayStatus.mk "RWY_r1" .occupied_departure (some "AC9") none,
        RunwayStatus.mk "RWY_r2" .clear none none] []).runways.find?
      (fun x => x.runway_id == "RWY_r1") =
        some (RunwayStatus.mk "RWY_r1" .occupied_departure (some "AC9") none)) ∧
    ((CapacityState.mk [] [] [RunwayStatus.mk "RWY_r1" .occupied_departure (some "AC9") none,
        RunwayStatus.mk "RWY_r2" .clear none none] []).occupy_runway "AC1" "RWY_r1" false =
      (CapacityState.mk [] [] [RunwayStatus.mk "RWY_r1" .occupied_departure (some "AC9") none,
        RunwayStatus.mk "RWY_r2" .clear none none] [], false)) := by
  refine ⟨by decide, ?_⟩
  exact (occupy_runway_exclusive
    (CapacityState.mk [] [] [RunwayStatus.mk "RWY_r1" .occupied_departure (some "AC9") none,
      RunwayStatus.mk "RWY_r2" .clear none none] [])
    "AC1" "RWY_r1" false
    (RunwayStatus.mk "RWY_r1" .occupied_departure (some "AC9") none)
    (by decide)).1 (by decide)

/-! ### C8: the mid-run update touches only the safe fields -/

/-- Agreement of two parameter bundles on everything outside the
`safe_params` fields (so on the class mixes, traffic mode, movement and
separation tables, capacities, simulation timing, and `random_seed`). -/
def NonSafeAgree (p q : SimulationParams) : Prop :=
  q.departure_class_mix = p.departure_class_mix ∧
  q.arrival_class_mix = p.arrival_class_mix ∧
  q.traffic_mode = p.traffic_mode ∧
  q.speed_base = p.speed_base ∧
  q.speed_mult_section = p.speed_mult_section ∧
  q.speed_mult_weather = p.speed_mult_weather ∧
  q.separation_runway = p.separation_runway ∧
  q.separation_taxiway = p.separation_taxiway ∧
  q.separation_apron = p.separation_apron ∧
  q.sep_mult_weather = p.sep_mult_weather ∧
  q.gate_capacities = p.gate_capacities ∧
  q.runway_capacity = p.runway_capacity ∧
  q.time_step_size = p.time_step_size ∧
  q.total_duration = p.total_duration ∧
  q.random_seed = p.random_seed

theorem nonSafeAgree_refl (p : SimulationParams) : NonSafeAgree p p :=
  ⟨rfl, rfl, rfl, rfl, rfl, rfl, rfl, rfl, rfl, rfl, rfl, rfl, rfl, rfl, rfl⟩

theorem applyOneUpdate_nonsafe (p p' : SimulationParams) (key : String) (v : UpdVal)
    (h : applyOneUpdate p key v = some p') : NonSafeAgree p p' := by
  unfold applyOneUpdate at h
  unfold NonSafeAgree
  split at h
  · obtain ⟨q, _, rfl⟩ := Option.map_eq_some'.mp h
    exact ⟨rfl, rfl, rfl, rfl, rfl, rfl, rfl, rfl, rfl, rfl, rfl, rfl, rfl, rfl, rfl⟩
  · split at h
    · obtain ⟨q, _, rfl⟩ := Option.map_eq_some'.mp h
      exact ⟨rfl, rfl, rfl, rfl, rfl, rfl, rfl, rfl, rfl, rfl, rfl, rfl, rfl, rfl, rfl⟩
    · split at h
      · obtain ⟨q, _, rfl⟩ := Option.map_eq_some'.mp h
        exact ⟨rfl, rfl, rfl, rfl, rfl, rfl, rfl, rfl, rfl, rfl, rfl, rfl, rfl, rfl, rfl⟩
      · split at h
        · obtain ⟨q, _, rfl⟩ := Option.map_eq_some'.mp h
          exact ⟨rfl, rfl, rfl, rfl, rfl, rfl, rfl, rfl, rfl, rfl, rfl, rfl, rfl, rfl, rfl⟩
        · split at h
          · obtain ⟨q, _, rfl⟩ := Option.map_eq_some'.mp h
            exact ⟨rfl, rfl, rfl, rfl, rfl, rfl, rfl, rfl, rfl, rfl, rfl, rfl, rfl, rfl, rfl⟩
          · split at h
            · obtain ⟨q, _, rfl⟩ := Option.map_eq_some'.mp h
              exact ⟨rfl, rfl, rfl, rfl, rfl, rfl, rfl, rfl, rfl, rfl, rfl, rfl, rfl, rfl, rfl⟩
            · split at h
              · obtain ⟨q, _, rfl⟩ := Option.map_eq_some'.mp h
                exact ⟨rfl, rfl, rfl, rfl, rfl, rfl, rfl, rfl, rfl, rfl, rfl, rfl, rfl, rfl, rfl⟩
              · split at h
                · obtain ⟨q, _, rfl⟩ := Option.map_eq_some'.mp h
                  exact ⟨rfl, rfl, rfl, rfl, rfl, rfl, rfl, rfl, rfl, rfl, rfl, rfl, rfl, rfl, rfl⟩
                · cases h
                  exact ⟨rfl, rfl, rfl, rfl, rfl, rfl, rfl, rfl, rfl, rfl, rfl, rfl, rfl, rfl, rfl⟩

theorem nonSafeAgree_trans (p q s : SimulationParams)
    (h1 : NonSafeAgree p q) (h2 : NonSafeAgree q s) : NonSafeAgree p s := by
  unfold NonSafeAgree at h1 h2 ⊢
  obtain ⟨a1, a2, a3, a4, a5, a6, a7, a8, a9, a10, a11, a12, a13, a14, a15⟩ := h1
  obtain ⟨b1, b2, b3, b4, b5, b6, b7, b8, b9, b10, b11, b12, b13, b14, b15⟩ := h2
  exact ⟨b1.trans a1, b2.trans a2, b3.trans a3, b4.trans a4, b5.trans a5, b6.trans a6,
    b7.trans a7, b8.trans a8, b9.trans a9, b10.trans a10, b11.trans a11, b12.trans a12,
    b13.trans a13, b14.trans a14, b15.trans a15⟩

/-- C8: `apply_midrun_update` changes at most the eight safe fields
(`departure_spawn_rate`, `arrival_spawn_rate`, `weather_condition`,
`wind_speed`, `wind_direction`, `runway_priority_mode`,
`intersection_priority_mode`, `hold_release_priority`); every other field,
`random_seed` included, is left unchanged for every update list (hence
whatever error or success the loop ends in), and an entry whose key is
outside the safe list is skipped silently, leaving the result exactly that of
the remaining entries.  The run RNG is not an input of the embedded
`apply_midrun_update` at all, mirroring the source, which never touches
`_rng` in this method. -/
theorem apply_midrun_update_frame (p : SimulationParams)
    (updates : List (String × UpdVal)) :
    NonSafeAgree p (p.apply_midrun_update updates).fst ∧
    (∀ key v rest, key ∉ safe_params →
      p.apply_midrun_update ((key, v) :: rest) = p.apply_midrun_update rest) := by
  constructor
  · induction updates generalizing p with
    | nil =>
        exact ⟨rfl, rfl, rfl, rfl, rfl, rfl, rfl, rfl, rfl, rfl, rfl, rfl, rfl, rfl, rfl⟩
    | cons kv rest ih =>
        obtain ⟨key, v⟩ := kv
        unfold SimulationParams.apply_midrun_update
        by_cases hk : key ∈ safe_params
        · rw [if_pos hk]
          cases hres : applyOneUpdate p key v with
          | some p' =>
              exact nonSafeAgree_trans _ _ _ (applyOneUpdate_nonsafe p p' key v hres) (ih p')
          | none =>
              exact ⟨rfl, rfl, rfl, rfl, rfl, rfl, rfl, rfl, rfl, rfl, rfl, rfl, rfl, rfl, rfl⟩
        · rw [if_neg hk]
          exact ih p
  · intro key v rest hk
    rw [SimulationParams.apply_midrun_update]
    rw [if_neg hk]

/-- Witness for `apply_midrun_update_frame`: an update that changes the
departure spawn rate, has an unknown key, and tries to change `random_seed`
(not a safe key); the unknown-key clause is instantiated at `"bogus_key"`. -/
theorem apply_midrun_update_frame_witness :
    NonSafeAgree {} ((SimulationParams.apply_midrun_update {}
      [("departure_spawn_rate", .vnum 7), ("random_seed", .vnum 9),
       ("bogus_key", .vstr "x")]).fst) ∧
    SimulationParams.apply_midrun_update {}
        (("bogus_key", .vstr "x") :: [("arrival_spawn_rate", .vnum 1)]) =
      SimulationParams.apply_midrun_update {} [("arrival_spawn_rate", .vnum 1)] :=
  ⟨(apply_midrun_update_frame {}
      [("departure_spawn_rate", .vnum 7), ("random_seed", .vnum 9),
       ("bogus_key", .vstr "x")]).1,
   (apply_midrun_update_frame {} []).2 "bogus_key" (.vstr "x")
     [("arrival_spawn_rate", .vnum 1)] (by decide)⟩

/-! ### C9: `get_priority_order` returns a permutation; fifo is the identity;
the `random` shuffle reads the global generator, not the run RNG -/

theorem list_set_decomp {α : Type} :
    ∀ (l : List α) (k : Nat) (b x : α), l.get? k = some b →
      ∃ l₁ l₂, l = l₁ ++ b :: l₂ ∧ l.set k x = l₁ ++ x :: l₂ ∧ l₁.length = k := by
  intro l
  induction l with
  | nil => intro k b x h; simp at h
  | cons y ys ih =>
      intro k b x h
      cases k with
      | zero =>
          simp only [List.get?] at h
          cases h
          exact ⟨[], ys, by simp, by simp, rfl⟩
      | succ k =>
          simp only [List.get?] at h
          obtain ⟨l₁, l₂, h1, h2, h3⟩ := ih k b x h
          exact ⟨y :: l₁, l₂, by simp [h1], by simp [List.set, h2], by simp [h3]⟩

theorem listSwap_perm {α : Type} (l : List α) (i j : Nat) : (listSwap l i j).Perm l := by
  unfold listSwap
  cases hi : l.get? i with
  | none => exact List.Perm.refl l
  | some a =>
      cases hj : l.get? j with
      | none => exact List.Perm.refl l
      | some b =>
          obtain ⟨l₁, l₂, hl, hset, hlen⟩ := list_set_decomp l i a b hi
          have hjb : (l.set i b).get? j = some b := by
            by_cases hij : j = i
            · subst hij
              have hlt : j < l.length := (List.get?_eq_some.mp hj).1
              rw [List.get?_eq_getElem?] at *
              simpa using List.getElem?_set_eq_of_lt b hlt
            · rw [List.get?_eq_getElem?] at *
              rw [List.getElem?_set_ne (fun h => hij h.symm)]
              exact hj
          obtain ⟨m₁, m₂, hm, hmset, _⟩ := list_set_decomp (l.set i b) j b a hjb
          have p1 : ((l.set i b).set j a).Perm (a :: (m₁ ++ m₂)) := by
            rw [hmset]; exact List.perm_middle
          have p2 : (l.set i b).Perm (b :: (m₁ ++ m₂)) := by
            conv_lhs => rw [hm]
            exact List.perm_middle
          have p3 : (l.set i b).Perm (b :: (l₁ ++ l₂)) := by
            conv_lhs => rw [hset]
            exact List.perm_middle
          have p4 : (m₁ ++ m₂).Perm (l₁ ++ l₂) :=
            (p2.symm.trans p3).cons_inv
          have p5 : l.Perm (a :: (l₁ ++ l₂)) := by
            conv_lhs => rw [hl]
            exact List.perm_middle
          exact p1.trans ((p4.cons a).trans p5.symm)

theorem shuffleSteps_perm {α : Type} :
    ∀ (k : Nat) (rng : PyRng) (l : List α), ((shuffleSteps rng l k).fst).Perm l := by
  intro k
  induction k with
  | zero => intro rng l; exact List.Perm.refl l
  | succ k ih =>
      intro rng l
      unfold shuffleSteps
      exact (ih _ _).trans (listSwap_perm _ _ _)

theorem pyShuffle_perm {α : Type} (rng : PyRng) (l : List α) :
    ((pyShuffle rng l).fst).Perm l := by
  unfold pyShuffle
  cases h : l.length with
  | zero => exact List.Perm.refl l
  | succ n => exact shuffleSteps_perm n rng l

theorem insertByKey_perm {α : Type} (key : α → Nat) (a : α) (l : List α) :
    (insertByKey key a l).Perm (a :: l) := by
  induction l with
  | nil => exact List.Perm.refl [a]
  | cons b bs ih =>
      unfold insertByKey
      by_cases h : key a ≤ key b
      · rw [if_pos h]
      · rw [if_neg h]
        exact (ih.cons b).trans (List.Perm.swap a b bs)

theorem sortByKey_perm {α : Type} (key : α → Nat) (l : List α) :
    (sortByKey key l).Perm l := by
  induction l with
  | nil => exact List.Perm.refl []
  | cons a as ih =>
      unfold sortByKey
      exact (insertByKey_perm key a _).trans (ih.cons a)

/-- C9 (amended): for every queue and every priority mode among
{fifo, random, depart_first, arrive_first, size_priority, weighted},
`get_priority_order` returns a permutation of the indices `0..len(queue)-1`,
and for `fifo` it is exactly the identity permutation with the generator
untouched (a stable no-op).  The `random` shuffle, however, is drawn from the
global `random`-module generator — the function's only generator input — and
not from the run-scoped RNG (see the counterexample theorem). -/
theorem get_priority_order_perm_and_fifo {α : Type} (queue : List α)
    (get_arrival_status : Option (α → Bool)) (get_size_class : Option (α → String))
    (globalRng : PyRng) :
    (∀ priority_mode,
      ((get_priority_order queue priority_mode get_arrival_status get_size_class
        globalRng).fst).Perm (List.range queue.length)) ∧
    get_priority_order queue .fifo get_arrival_status get_size_class globalRng =
      (List.range queue.length, globalRng) := by
  constructor
  · intro priority_mode
    unfold get_priority_order
    by_cases hq : queue.isEmpty
    · rw [if_pos hq]
      have : queue.length = 0 := by
        cases queue with
        | nil => rfl
        | cons a as => simp [List.isEmpty] at hq
      simp [this]
    · rw [if_neg hq]
      cases priority_mode with
      | fifo => exact List.Perm.refl _
      | random => exact pyShuffle_perm _ _
      | depart_first =>
          cases get_arrival_status with
          | some f => exact sortByKey_perm _ _
          | none => exact List.Perm.refl _
      | arrive_first =>
          cases get_arrival_status with
          | some f => exact sortByKey_perm _ _
          | none => exact List.Perm.refl _
      | size_priority =>
          cases get_size_class with
          | some f => exact sortByKey_perm _ _
          | none => exact List.Perm.refl _
      | weighted => exact List.Perm.refl _
  · unfold get_priority_order
    by_cases hq : queue.isEmpty
    · rw [if_pos hq]
      have : queue.length = 0 := by
        cases queue with
        | nil => rfl
        | cons a as => simp [List.isEmpty] at hq
      simp [this]
    · rw [if_neg hq]

/-- C9 counterexample to "random uses the run-scoped RNG": `get_priority_order`
takes no run RNG at all, and its `random` result depends on the state of the
global `random`-module generator — two runs with any identical run-scoped RNG
but different global-module states order the same queue differently.  (Seeding
the run RNG therefore does not determine the `random` priority order.) -/
theorem get_priority_order_random_global_rng_counterexample :
    (get_priority_order ["x", "y"] .random none none (PyRng.mk (fun _ => 0) 0)).fst ≠
      (get_priority_order ["x", "y"] .random none none (PyRng.mk (fun _ => 1/2) 0)).fst := by
  decide

/-! ### C2: the hold-point gate -/

theorem remove_from_edge_holds (c : CapacityState) (aid eid : String) :
    (c.remove_from_edge aid eid).holds = c.holds := by
  unfold CapacityState.remove_from_edge
  split <;> rfl

theorem add_to_edge_holds (c : CapacityState) (aid eid : String) :
    (c.add_to_edge aid eid).holds = c.holds := by
  unfold CapacityState.add_to_edge
  split <;> rfl

theorem releaseRunwaysOf_holds (c : CapacityState) (aid : String) :
    (releaseRunwaysOf c aid).holds = c.holds := rfl

theorem occupyFirstAvailable_holds (c : CapacityState) (aid : String) (arr : Bool) :
    (occupyFirstAvailable c aid arr).holds = c.holds := by
  unfold occupyFirstAvailable
  split <;> rfl

theorem naschTransition_holds (aircraft : Aircraft) (layout : Layout) (route : Route)
    (edge : Edge) (edge_id : String) (cap : CapacityState) :
    (naschTransition aircraft layout route edge edge_id cap).snd.holds = cap.holds := by
  unfold naschTransition
  split
  · dsimp only
    split <;> (try dsimp only) <;> split <;>
      simp only [add_to_edge_holds, remove_from_edge_holds, releaseRunwaysOf_holds]
  · rfl

theorem naschMove_holds (aircraft : Aircraft) (all_aircraft : List Aircraft)
    (layout : Layout) (route : Route) (edge : Edge) (edge_id : String) (vmax : ℚ)
    (cap : CapacityState) (dt : ℚ) (rng : PyRng) :
    (naschMove aircraft all_aircraft layout route edge edge_id vmax
      cap dt rng).2.1.holds = cap.holds := by
  unfold naschMove
  exact naschTransition_holds _ _ _ _ _ _

/-- `findHold` after `setHold` on the same id, for an id-preserving rewrite. -/
theorem findHold_setHold_self (c : CapacityState) (hid : String) (f : HoldQueue → HoldQueue)
    (hf : ∀ h, (f h).hold_point_id = h.hold_point_id) :
    (c.setHold hid f).findHold hid = (c.findHold hid).map f := by
  unfold CapacityState.setHold CapacityState.findHold
  induction c.holds with
  | nil => rfl
  | cons h hs ih =>
      by_cases hh : h.hold_point_id == hid
      · simp only [List.map_cons, List.find?_cons, hh, if_pos]
        have : (f h).hold_point_id == hid := by
          rw [hf h]
          exact hh
        simp [this, hh]
      · simp only [List.map_cons, List.find?_cons, hh, if_neg]
        have : ((f h).hold_point_id == hid) = false := by
          rw [hf h]
          simpa using hh
        simpa [this, hh] using ih

theorem holdQueue_add_mem (h : HoldQueue) (aid : String) : aid ∈ (h.add aid).queue := by
  unfold HoldQueue.add
  by_cases hm : aid ∈ h.queue
  · simp [hm]
  · simp [hm]

theorem holdQueue_add_id (h : HoldQueue) (aid : String) :
    (h.add aid).hold_point_id = h.hold_point_id := by
  unfold HoldQueue.add
  split <;> rfl

theorem holdQueue_remove_id (h : HoldQueue) (aid : String) :
    (h.remove aid).hold_point_id = h.hold_point_id := rfl

theorem any_not_eq_not_all (l : List RunwayStatus) :
    (l.any (fun r => !r.is_available)) = !(l.all (fun r => r.is_available)) := by
  induction l with
  | nil => rfl
  | cons r rs ih => simp [List.any_cons, List.all_cons, ih]

/-- The hold-gate condition as the code computes it: under the C2 hypotheses
(next route edge exists, is found in the layout, and is a runway),
`can_proceed_from_hold` is true iff **every** runway is available and the next
edge is not full. -/
theorem can_proceed_from_hold_eq (aircraft : Aircraft) (layout : Layout)
    (cap : CapacityState) (params : SimulationParams) (route : Route)
    (next_edge_id : String) (next_edge : Edge)
    (hroute : aircraft.route = some route)
    (hnext : route.edges.get? (aircraft.current_edge_idx + 1) = some next_edge_id)
    (hnedge : layout.get_edge next_edge_id = some next_edge)
    (hnrw : next_edge.edge_type = .runway) :
    can_proceed_from_hold aircraft layout cap params =
      (cap.runways.all (fun r => r.is_available) && !cap.is_edge_full next_edge_id) := by
  have hlt : aircraft.current_edge_idx + 1 < route.edges.length :=
    (List.get?_eq_some.mp hnext).1
  unfold can_proceed_from_hold
  rw [hroute]
  dsimp only
  rw [if_neg (by omega), hnext]
  dsimp only
  rw [hnedge]
  dsimp only
  have hbeq : (next_edge.edge_type == EdgeType.runway) = true := by
    simp [hnrw]
  rw [hbeq, any_not_eq_not_all]
  cases hall : cap.runways.all (fun r => r.is_available) <;>
    cases hfull : cap.is_edge_full next_edge_id <;> simp

theorem naschMove_findHold (aircraft : Aircraft) (all_aircraft : List Aircraft)
    (layout : Layout) (route : Route) (edge : Edge) (edge_id : String) (vmax : ℚ)
    (cap : CapacityState) (dt : ℚ) (rng : PyRng) (hid : String) :
    (naschMove aircraft all_aircraft layout route edge edge_id vmax
      cap dt rng).2.1.findHold hid = cap.findHold hid := by
  unfold CapacityState.findHold
  rw [naschMove_holds]

/-- Evaluation of `is_at_hold_point` under the C2 hypotheses. -/
theorem is_at_hold_point_eq (aircraft : Aircraft) (layout : Layout) (route : Route)
    (edge_id : String) (edge : Edge) (hold_node : Node)
    (hroute : aircraft.route = some route)
    (hedge_id : route.edges.get? aircraft.current_edge_idx = some edge_id)
    (hedge : layout.get_edge edge_id = some edge)
    (hpos : edge.length * (19/20) ≤ aircraft.position_on_edge)
    (hend : layout.get_node edge.end_node = some hold_node)
    (hhold : hold_node.node_type = .hold_point) :
    is_at_hold_point aircraft layout = (true, some hold_node.id) := by
  have hlt : aircraft.current_edge_idx < route.edges.length :=
    (List.get?_eq_some.mp hedge_id).1
  unfold is_at_hold_point
  rw [hroute]
  dsimp only
  rw [if_neg (by omega), hedge_id]
  dsimp only
  rw [hedge]
  dsimp only
  rw [if_pos hpos, hend]
  dsimp only
  have : (hold_node.node_type == NodeType.hold_point) = true := by simp [hhold]
  rw [this]
  rw [if_pos rfl]

/-- C2 (amended): hold-point gating as the code implements it.  For an aircraft
within the last 5% of its current edge whose end node is a hold point (with a
nonempty id) and whose next route edge is a runway, the movement kernel
releases it from the hold exactly when **every** runway is available and the
next edge is not full.  While this fails, the aircraft's speed is set to 0, its
position and edge index are unchanged, no edge-occupancy or runway state
changes, and its id is kept in (inserted into) the hold queue; when it holds,
the aircraft's id is removed from the hold queue. -/
theorem nasch_step_hold_gate (aircraft : Aircraft) (all_aircraft : List Aircraft)
    (layout : Layout) (params : SimulationParams) (cap : CapacityState) (dt : ℚ)
    (rng : PyRng) (route : Route) (edge_id : String) (edge : Edge) (hold_node : Node)
    (next_edge_id : String) (next_edge : Edge)
    (hstat : aircraft.status ≠ .departed ∧ aircraft.status ≠ .parked)
    (hroute : aircraft.route = some route)
    (hedge_id : route.edges.get? aircraft.current_edge_idx = some edge_id)
    (hedge : layout.get_edge edge_id = some edge)
    (hpos : edge.length * (19/20) ≤ aircraft.position_on_edge)
    (hend : layout.get_node edge.end_node = some hold_node)
    (hhold : hold_node.node_type = .hold_point)
    (hhid : hold_node.id ≠ "")
    (hnext : route.edges.get? (aircraft.current_edge_idx + 1) = some next_edge_id)
    (hnedge : layout.get_edge next_edge_id = some next_edge)
    (hnrw : next_edge.edge_type = .runway) :
    ((cap.runways.all (fun r => r.is_available) && !cap.is_edge_full next_edge_id) = false →
      (nasch_step aircraft all_aircraft layout params cap dt rng).1.speed = 0 ∧
      (nasch_step aircraft all_aircraft layout params cap dt rng).1.position_on_edge =
        aircraft.position_on_edge ∧
      (nasch_step aircraft all_aircraft layout params cap dt rng).1.current_edge_idx =
        aircraft.current_edge_idx ∧
      (nasch_step aircraft all_aircraft layout params cap dt rng).2.1.edges = cap.edges ∧
      (nasch_step aircraft all_aircraft layout params cap dt rng).2.1.runways =
        cap.runways ∧
      (∀ hq, cap.findHold hold_node.id = some hq →
        ∃ hq', (nasch_step aircraft all_aircraft layout params cap dt rng).2.1.findHold
          hold_node.id = some hq' ∧ aircraft.id ∈ hq'.queue)) ∧
    ((cap.runways.all (fun r => r.is_available) && !cap.is_edge_full next_edge_id) = true →
      ∀ hq, cap.findHold hold_node.id = some hq →
        ∃ hq', (nasch_step aircraft all_aircraft layout params cap dt rng).2.1.findHold
          hold_node.id = some hq' ∧ hq'.queue = hq.queue.erase aircraft.id) := by
  have hlt : aircraft.current_edge_idx < route.edges.length :=
    (List.get?_eq_some.mp hedge_id).1
  have hstatus : (aircraft.status == FlightStatus.departed ||
      aircraft.status == FlightStatus.parked) = false := by
    obtain ⟨h1, h2⟩ := hstat
    simp [h1, h2]
  have hat : is_at_hold_point aircraft layout = (true, some hold_node.id) :=
    is_at_hold_point_eq aircraft layout route edge_id edge hold_node hroute hedge_id
      hedge hpos hend hhold
  have hcp : can_proceed_from_hold aircraft layout cap params =
      (cap.runways.all (fun r => r.is_available) && !cap.is_edge_full next_edge_id) :=
    can_proceed_from_hold_eq aircraft layout cap params route next_edge_id next_edge
      hroute hnext hnedge hnrw
  have hhidb : (hold_node.id == "") = false := by
    simpa using hhid
  have hstep : nasch_step aircraft all_aircraft layout params cap dt rng =
      (let wr := params.get_weather rng
       let vmax := get_speed_limit_w edge aircraft.aircraft_class params wr.fst
       if can_proceed_from_hold aircraft layout cap params = false then
         let ar :=
           match aircraft.wait_start_time with
           | none =>
               let w := wr.snd.random
               ({ aircraft with wait_start_time := some w.fst }, w.snd)
           | some _ => (aircraft, wr.snd)
         let aircraft2 := { ar.fst with speed := 0 }
         let cap2 :=
           match cap.findHold hold_node.id with
           | some hq =>
               if aircraft2.id ∈ hq.queue then cap
               else cap.setHold hold_node.id (fun h => h.add aircraft2.id)
           | none => cap
         (aircraft2, cap2, ar.snd)
       else
         let cap1 :=
           if aircraft.current_edge_idx + 1 < route.edges.length then
             match (route.edges.get? (aircraft.current_edge_idx + 1)).bind
               layout.get_edge with
             | some ne =>
                 if ne.edge_type == .runway then
                   occupyFirstAvailable cap aircraft.id aircraft.is_arrival
                 else cap
             | none => cap
           else cap
         let cap2 :=
           match cap1.findHold hold_node.id with
           | some _ => cap1.setHold hold_node.id (fun h => h.remove aircraft.id)
           | none => cap1
         naschMove aircraft all_aircraft layout route edge edge_id vmax cap2 dt
           wr.snd) := by
    have hnotle : ¬(route.edges.length ≤ aircraft.current_edge_idx) := by omega
    unfold nasch_step
    rw [hstatus]
    simp only [Bool.false_eq_true, if_false]
    rw [hroute]
    dsimp only
    rw [if_neg hnotle, hedge_id]
    dsimp only
    rw [hedge]
    dsimp only
    rw [hat]
    dsimp only
    rw [hhidb]
    simp only [Bool.not_false, Bool.and_self]
    rw [if_pos trivial]
    cases hcpv : can_proceed_from_hold aircraft layout cap params with
    | false =>
        simp only [Bool.not_false]
        rfl
    | true =>
        simp only [Bool.not_true]
        rfl
  constructor
  · intro hcond
    rw [hstep]
    rw [hcp, hcond]
    rw [if_pos rfl]
    refine ⟨?_, ?_, ?_, ?_, ?_, ?_⟩
    · cases aircraft.wait_start_time <;> rfl
    · cases aircraft.wait_start_time <;> rfl
    · cases aircraft.wait_start_time <;> rfl
    · cases hfh : cap.findHold hold_node.id with
      | none => cases aircraft.wait_start_time <;> simp [hfh]
      | some hq =>
          by_cases hmem : aircraft.id ∈ hq.queue
          all_goals cases aircraft.wait_start_time <;>
            simp [hfh, hmem, CapacityState.setHold]
    · cases hfh : cap.findHold hold_node.id with
      | none => cases aircraft.wait_start_time <;> simp [hfh]
      | some hq =>
          by_cases hmem : aircraft.id ∈ hq.queue
          all_goals cases aircraft.wait_start_time <;>
            simp [hfh, hmem, CapacityState.setHold]
    · intro hq hfh
      by_cases hmem : aircraft.id ∈ hq.queue
      · refine ⟨hq, ?_, hmem⟩
        cases aircraft.wait_start_time <;> simp [hfh, hmem]
      · refine ⟨hq.add aircraft.id, ?_, holdQueue_add_mem hq aircraft.id⟩
        have hset : (cap.setHold hold_node.id (fun h => h.add aircraft.id)).findHold
            hold_node.id = some (hq.add aircraft.id) := by
          rw [findHold_setHold_self cap hold_node.id _ (fun h => holdQueue_add_id h _), hfh]
          rfl
        cases aircraft.wait_start_time <;> simp [hfh, hmem, hset]
  · intro hcond hq hfh
    rw [hstep]
    rw [hcp, hcond]
    rw [if_neg (by simp)]
    have hnlt : aircraft.current_edge_idx + 1 < route.edges.length :=
      (List.get?_eq_some.mp hnext).1
    rw [if_pos hnlt, hnext]
    dsimp only [Option.bind]
    rw [hnedge]
    dsimp only
    have hbrw : (next_edge.edge_type == EdgeType.runway) = true := by simp [hnrw]
    rw [hbrw]
    rw [if_pos rfl]
    have hofa_holds : (occupyFirstAvailable cap aircraft.id aircraft.is_arrival).holds =
      cap.holds := occupyFirstAvailable_holds cap aircraft.id aircraft.is_arrival
    have hfh1 : (occupyFirstAvailable cap aircraft.id aircraft.is_arrival).findHold
        hold_node.id = some hq := by
      unfold CapacityState.findHold at hfh ⊢
      rw [hofa_holds]
      exact hfh
    rw [hfh1]
    dsimp only
    refine ⟨hq.remove aircraft.id, ?_, rfl⟩
    rw [naschMove_findHold]
    rw [findHold_setHold_self _ hold_node.id _ (fun h => holdQueue_remove_id h _), hfh1]
    rfl

/-- C2 counterexample to "released when **some (any)** runway is available and
the next edge is not full": at `fixCapHold` one runway is occupied and one is
clear, so *some* runway is available (`is_runway_available none = true`) and
the next (runway) edge `r1` is not full — yet the kernel does **not** release
the aircraft: its speed is set to 0, it does not move, and it is put in the
hold queue, because `can_proceed_from_hold` demands **every** runway clear. -/
theorem nasch_step_hold_gate_any_runway_counterexample :
    fixCapHold.is_runway_available none = true ∧
    fixCapHold.is_edge_full "r1" = false ∧
    (fixLayoutHold.get_edge "r1").map Edge.edge_type = some .runway ∧
    is_at_hold_point fixAircraftHold fixLayoutHold = (true, some "H") ∧
    (nasch_step fixAircraftHold [fixAircraftHold] fixLayoutHold {} fixCapHold 1
      (PyRng.mk (fun _ => 0) 0)).1.speed = 0 ∧
    (nasch_step fixAircraftHold [fixAircraftHold] fixLayoutHold {} fixCapHold 1
      (PyRng.mk (fun _ => 0) 0)).1.position_on_edge = 96 ∧
    (nasch_step fixAircraftHold [fixAircraftHold] fixLayoutHold {} fixCapHold 1
      (PyRng.mk (fun _ => 0) 0)).2.1.findHold "H" =
        some (HoldQueue.mk "H" ["DEP_T1"] [("DEP_T1", 0)]) := by
  decide

/-- Witness for `nasch_step_hold_gate` at the hold fixture (blocked case:
one of the two runways is occupied). -/
theorem nasch_step_hold_gate_witness :
    (nasch_step fixAircraftHold [fixAircraftHold] fixLayoutHold {} fixCapHold 1
      (PyRng.mk (fun _ => 1/3) 0)).1.speed = 0 ∧
    (nasch_step fixAircraftHold [fixAircraftHold] fixLayoutHold {} fixCapHold 1
      (PyRng.mk (fun _ => 1/3) 0)).1.position_on_edge =
        fixAircraftHold.position_on_edge :=
  have h := (nasch_step_hold_gate fixAircraftHold [fixAircraftHold] fixLayoutHold {}
    fixCapHold 1 (PyRng.mk (fun _ => 1/3) 0)
    (Route.mk ["t1", "r1"] "X" "E27" 600) "t1"
    (Edge.mk "t1" .taxiway "X" "H" 100 .both false none none)
    (Node.mk "H" .hold_point 100 0 "" none none) "r1"
    (Edge.mk "r1" .runway "H" "E27" 500 .both false none none)
    (by decide) (by decide) (by decide) (by decide) (by decide) (by decide)
    (by decide) (by decide) (by decide) (by decide) (by decide)).1 (by decide)
  ⟨h.1, h.2.1⟩

/-! ### C6: failed spawns leave the gate state unchanged -/

theorem head?_mem {α : Type} {l : List α} {a : α} (h : l.head? = some a) : a ∈ l := by
  cases l with
  | nil => cases h
  | cons x xs =>
      cases h
      exact List.mem_cons_self _ _

/-- A gate id returned by `get_available_gates` names a free gate record. -/
theorem mem_available_gates (c : CapacityState) (apron cls : Option String) (g0 : String)
    (h : g0 ∈ c.get_available_gates apron cls) :
    ∃ g ∈ c.gates, g.gate_id = g0 ∧ g.state = .free := by
  unfold CapacityState.get_available_gates at h
  obtain ⟨g, hg, rfl⟩ := List.mem_map.mp h
  have hmem := List.mem_of_mem_filter hg
  have hpred := List.of_mem_filter hg
  refine ⟨g, hmem, rfl, ?_⟩
  have havail : g.is_available cls = true := by
    cases hb : (match apron with
      | some a => if optStrTruthy (some a) then g.apron == a else true
      | none => true) <;> rw [hb] at hpred
    · simp at hpred
    · simp at hpred
      exact hpred
  unfold GateStatus.is_available at havail
  by_cases hs : g.state = GateState.free
  · exact hs
  · exfalso
    have : (g.state == GateState.free) = false := by
      simpa using hs
    rw [this] at havail
    simp at havail

/-- Occupying then releasing a gate whose matching records were free and
unoccupied restores the gate list exactly. -/
theorem setGate_release_gates (c : CapacityState) (g0 aid : String)
    (hfree : ∀ g ∈ c.gates, g.gate_id = g0 → g.state = .free ∧ g.occupied_by = none) :
    ((c.setGate g0 (fun g' =>
      { g' with state := .occupied, occupied_by := some aid })).release_gate g0).gates =
      c.gates := by
  unfold CapacityState.release_gate CapacityState.setGate
  dsimp only
  rw [List.map_map]
  have hpt : ∀ g ∈ c.gates, ((fun g => if g.gate_id == g0 then
      { g with state := GateState.free, occupied_by := none } else g) ∘
      (fun g => if g.gate_id == g0 then
        { g with state := GateState.occupied, occupied_by := some aid } else g)) g = g := by
    intro g hg
    simp only [Function.comp_apply]
    by_cases hid : (g.gate_id == g0) = true
    · rw [if_pos hid]
      dsimp only
      rw [if_pos hid]
      obtain ⟨h1, h2⟩ := hfree g hg (by simpa using hid)
      cases g
      simp_all
    · rw [if_neg hid]
      rw [if_neg hid]
  rw [List.map_congr_left hpt]
  simp

/-- `assign_gate` without an explicit gate: failure leaves the state untouched,
success picks an available gate and occupies it. -/
theorem assign_gate_auto_cases (c : CapacityState) (aid : String)
    (apron cls : Option String) :
    ((c.assign_gate aid none apron cls).fst = none →
      (c.assign_gate aid none apron cls).snd = c) ∧
    (∀ g0, (c.assign_gate aid none apron cls).fst = some g0 →
      g0 ∈ c.get_available_gates apron cls ∧
      (c.assign_gate aid none apron cls).snd = c.setGate g0 (fun g' =>
        { g' with state := .occupied, occupied_by := some aid })) := by
  unfold CapacityState.assign_gate
  cases hh : (c.get_available_gates apron cls).head? with
  | none => exact ⟨fun _ => rfl, fun g0 h => by simp at h⟩
  | some g1 =>
      refine ⟨fun h => by simp at h, fun g0 h => ?_⟩
      simp only [Option.some_inj] at h
      subst h
      exact ⟨head?_mem hh, rfl⟩

/-- The free-gate bookkeeping invariant of reachable capacity states: a free
gate records no occupant, and gate ids are unique (they are dict keys). -/
def GatesWellFormed (c : CapacityState) : Prop :=
  (∀ g ∈ c.gates, g.state = .free → g.occupied_by = none) ∧
  (c.gates.map GateStatus.gate_id).Nodup

/-- Under `GatesWellFormed`, an assigned-then-released gate restores `gates`. -/
theorem assigned_release_restores (c : CapacityState) (aid : String)
    (apron cls : Option String) (g0 : String) (hwf : GatesWellFormed c)
    (h : (c.assign_gate aid none apron cls).fst = some g0) :
    ((c.assign_gate aid none apron cls).snd.release_gate g0).gates = c.gates := by
  obtain ⟨hmem, hset⟩ := (assign_gate_auto_cases c aid apron cls).2 g0 h
  rw [hset]
  apply setGate_release_gates
  intro g hg hgid
  obtain ⟨ga, hga, hgaid, hgafree⟩ := mem_available_gates c apron cls g0 hmem
  have : g = ga := by
    apply List.inj_on_of_nodup_map hwf.2 hg hga
    rw [hgid, hgaid]
  subst this
  exact ⟨hgafree, hwf.1 g hg hgafree⟩

/-- C6 counterexample input to the original claim: a free gate whose id is the
empty string (a legal dict key that `Layout.validate` never rejects).  The
spawner reserves it through `assign_gate`, then the `if not gate_id` guard
treats the returned empty id as "no gate" and returns no aircraft **without
releasing the gate**: no aircraft are emitted, yet the gate list has changed —
the gate is left occupied by the `"PENDING"` placeholder. -/
theorem spawn_failure_empty_gate_id_counterexample :
    (spawn_departures fixLayoutSpawn fixParamsSpawn fixCapEmptyGate
        (Router.mk fixLayoutSpawn {}) 0 1 (PyRng.mk (fun _ => 0) 0) "abcdef").1 =
      [] ∧
    (spawn_departures fixLayoutSpawn fixParamsSpawn fixCapEmptyGate
        (Router.mk fixLayoutSpawn {}) 0 1
        (PyRng.mk (fun _ => 0) 0) "abcdef").2.1.gates ≠ fixCapEmptyGate.gates ∧
    (spawn_departures fixLayoutSpawn fixParamsSpawn fixCapEmptyGate
        (Router.mk fixLayoutSpawn {}) 0 1
        (PyRng.mk (fun _ => 0) 0) "abcdef").2.1.gates =
      [GateStatus.mk "" "default" none .occupied (some "PENDING")] :=
  ⟨by decide, by decide, by decide⟩

/-- C6 (amended): for every spawn attempt (departure or arrival) on a capacity
state whose gate ids are all truthy (non-empty — the empty-string id defeats
the claim, see the counterexample), on the failure paths — no gate available,
or no route between the chosen endpoints (and likewise no active runway
endpoint) — the spawner emits no aircraft and any gate it reserved is released
back to free, so the net gate state is unchanged; this is stated as: whenever
the spawner returns no aircraft, the gate list is exactly the input gate list,
and when no gate is available (for any class) nothing at all changes.
`GatesWellFormed` is the reachable-state bookkeeping invariant (free gates
record no occupant; gate ids are dict keys, hence unique). -/
theorem spawn_failure_leaves_gates_unchanged (layout : Layout)
    (params : SimulationParams) (cap : CapacityState) (router : Router)
    (time dt : ℚ) (rng : PyRng) (uuid_hex : String) (hwf : GatesWellFormed cap)
    (hids : ∀ g ∈ cap.gates, g.gate_id ≠ "") :
    ((spawn_departures layout params cap router time dt rng uuid_hex).1 = [] →
      (spawn_departures layout params cap router time dt rng uuid_hex).2.1.gates =
        cap.gates) ∧
    ((spawn_arrivals layout params cap router time dt rng uuid_hex).1 = [] →
      (spawn_arrivals layout params cap router time dt rng uuid_hex).2.1.gates =
        cap.gates) ∧
    ((∀ cls, cap.get_available_gates none (some cls) = []) →
      (spawn_departures layout params cap router time dt rng uuid_hex).1 = [] ∧
      (spawn_arrivals layout params cap router time dt rng uuid_hex).1 = []) := by
  have hnogate : ∀ cls aid, (∀ c2, cap.get_available_gates none (some c2) = []) →
      cap.assign_gate aid none none (some cls) = (none, cap) := by
    intro cls aid hng
    unfold CapacityState.assign_gate
    rw [hng cls]
    rfl
  refine ⟨?_, ?_, ?_⟩
  · unfold spawn_departures
    dsimp only
    split
    · intro _; rfl
    · split
      · intro _; rfl
      · split
        · next heq =>
            intro _
            rw [(assign_gate_auto_cases cap "PENDING" none
              (some (params.sample_aircraft_class false
                (params.get_spawn_rate false rng).snd.random.snd).fst)).1 heq]
        · next gid heq =>
            split
            · next hgid =>
                intro _
                exfalso
                obtain ⟨hmem, _⟩ := (assign_gate_auto_cases cap "PENDING" none
                  (some (params.sample_aircraft_class false
                    (params.get_spawn_rate false rng).snd.random.snd).fst)).2 gid heq
                obtain ⟨g, hg, hgid2, _⟩ := mem_available_gates cap none
                  (some (params.sample_aircraft_class false
                    (params.get_spawn_rate false rng).snd.random.snd).fst) gid hmem
                exact hids g hg (by rw [hgid2]; exact eq_of_beq hgid)
            · split
              · intro _
                exact assigned_release_restores cap "PENDING" none
                  (some (params.sample_aircraft_class false
                    (params.get_spawn_rate false rng).snd.random.snd).fst) gid hwf heq
              · split
                · intro _
                  exact assigned_release_restores cap "PENDING" none
                    (some (params.sample_aircraft_class false
                      (params.get_spawn_rate false rng).snd.random.snd).fst) gid hwf heq
                · intro habs
                  exact absurd habs (by simp)
  · unfold spawn_arrivals
    dsimp only
    split
    · intro _; rfl
    · split
      · intro _; rfl
      · split
        · intro _; rfl
        · split
          · next heq =>
              intro _
              rw [(assign_gate_auto_cases cap "PENDING" none
                (some (params.sample_aircraft_class true
                  (params.get_spawn_rate true rng).snd.random.snd).fst)).1 heq]
          · next gid heq =>
              split
              · next hgid =>
                  intro _
                  exfalso
                  obtain ⟨hmem, _⟩ := (assign_gate_auto_cases cap "PENDING" none
                    (some (params.sample_aircraft_class true
                      (params.get_spawn_rate true rng).snd.random.snd).fst)).2 gid heq
                  obtain ⟨g, hg, hgid2, _⟩ := mem_available_gates cap none
                    (some (params.sample_aircraft_class true
                      (params.get_spawn_rate true rng).snd.random.snd).fst) gid hmem
                  exact hids g hg (by rw [hgid2]; exact eq_of_beq hgid)
              · split
                · intro _
                  exact assigned_release_restores cap "PENDING" none
                    (some (params.sample_aircraft_class true
                      (params.get_spawn_rate true rng).snd.random.snd).fst) gid hwf heq
                · intro habs
                  exact absurd habs (by simp)
  · intro hng
    constructor
    · unfold spawn_departures
      dsimp only
      split
      · rfl
      · split
        · rfl
        · split
          · rfl
          · next gid heq =>
              rw [hnogate _ "PENDING" hng] at heq
              cases heq
    · unfold spawn_arrivals
      dsimp only
      split
      · rfl
      · split
        · rfl
        · split
          · rfl
          · split
            · rfl
            · next gid heq =>
                rw [hnogate _ "PENDING" hng] at heq
                cases heq

/-- Witness for `spawn_failure_leaves_gates_unchanged`: a layout with a gate
and a runway end but no edges, so the router finds no route; the spawner
reserves the gate, fails to route, and the gate list is restored. -/
theorem spawn_failure_leaves_gates_unchanged_witness :
    (spawn_departures (Layout.mk [Node.mk "G" .gate 0 0 "" none none,
        Node.mk "RE27" .runway_end 50 0 "" none none] [])
      fixParamsSpawn fixCapSpawn
      (Router.mk (Layout.mk [Node.mk "G" .gate 0 0 "" none none,
        Node.mk "RE27" .runway_end 50 0 "" none none] []) {}) 0 1
      (PyRng.mk (fun _ => 0) 0) "abcdef").1 = [] ∧
    (spawn_departures (Layout.mk [Node.mk "G" .gate 0 0 "" none none,
        Node.mk "RE27" .runway_end 50 0 "" none none] [])
      fixParamsSpawn fixCapSpawn
      (Router.mk (Layout.mk [Node.mk "G" .gate 0 0 "" none none,
        Node.mk "RE27" .runway_end 50 0 "" none none] []) {}) 0 1
      (PyRng.mk (fun _ => 0) 0) "abcdef").2.1.gates = fixCapSpawn.gates :=
  ⟨by decide,
   (spawn_failure_leaves_gates_unchanged (Layout.mk [Node.mk "G" .gate 0 0 "" none none,
        Node.mk "RE27" .runway_end 50 0 "" none none] [])
      fixParamsSpawn fixCapSpawn
      (Router.mk (Layout.mk [Node.mk "G" .gate 0 0 "" none none,
        Node.mk "RE27" .runway_end 50 0 "" none none] []) {}) 0 1
      (PyRng.mk (fun _ => 0) 0) "abcdef" ⟨by decide, by decide⟩
      (by decide)).1 (by decide)⟩

/-! ### C1: aircraft ids come from `uuid.uuid4`, not from the run RNG -/

/-- C1 evaluation at the failing input: two departure-spawn calls whose inputs
— layout, parameters (seed included), capacity, router, time, `dt`, and the
run-scoped RNG state — are identical except for the operating-system entropy
that `uuid.uuid4()` consumes produce different aircraft (different ids that
land verbatim in the result JSON's `flights` records).  The run-scoped RNG is
therefore not the sole source of randomness in a run, and identical inputs
with the same `random_seed` do not reproduce identical result JSON. -/
theorem spawn_departure_id_from_uuid_entropy :
    (spawn_departures fixLayoutSpawn fixParamsSpawn fixCapSpawn
        (Router.mk fixLayoutSpawn {}) 0 1 (PyRng.mk (fun _ => 0) 0) "aaaaaa").1 ≠
      (spawn_departures fixLayoutSpawn fixParamsSpawn fixCapSpawn
        (Router.mk fixLayoutSpawn {}) 0 1 (PyRng.mk (fun _ => 0) 0) "bbbbbb").1 ∧
    (spawn_departures fixLayoutSpawn fixParamsSpawn fixCapSpawn
        (Router.mk fixLayoutSpawn {}) 0 1 (PyRng.mk (fun _ => 0) 0) "aaaaaa").1.map
      Aircraft.id = ["DEP_AAAAAA"] ∧
    (spawn_departures fixLayoutSpawn fixParamsSpawn fixCapSpawn
        (Router.mk fixLayoutSpawn {}) 0 1 (PyRng.mk (fun _ => 0) 0) "bbbbbb").1.map
      Aircraft.id = ["DEP_BBBBBB"] := by
  refine ⟨?_, by decide, by decide⟩
  intro h
  have h1 : (spawn_departures fixLayoutSpawn fixParamsSpawn fixCapSpawn
      (Router.mk fixLayoutSpawn {}) 0 1 (PyRng.mk (fun _ => 0) 0) "aaaaaa").1.map
        Aircraft.id =
      (spawn_departures fixLayoutSpawn fixParamsSpawn fixCapSpawn
        (Router.mk fixLayoutSpawn {}) 0 1 (PyRng.mk (fun _ => 0) 0) "bbbbbb").1.map
        Aircraft.id := by rw [h]
  rw [show (spawn_departures fixLayoutSpawn fixParamsSpawn fixCapSpawn
      (Router.mk fixLayoutSpawn {}) 0 1 (PyRng.mk (fun _ => 0) 0) "aaaaaa").1.map
        Aircraft.id = ["DEP_AAAAAA"] by decide,
    show (spawn_departures fixLayoutSpawn fixParamsSpawn fixCapSpawn
      (Router.mk fixLayoutSpawn {}) 0 1 (PyRng.mk (fun _ => 0) 0) "bbbbbb").1.map
        Aircraft.id = ["DEP_BBBBBB"] by decide] at h1
  exact absurd h1 (by decide)

/-! ### C3: the tick equals the spec-ordered composition of its sub-phases

The driver body executes spawn → advance_waiting → move → record (the
waiting-time update is the first phase of `model_core.step`, which the runner
calls after spawning).  The spawn phase touches gates, edge occupancy, the
aircraft list and the RNG; `advance_waiting` touches only the hold queues'
waiting times; the two phases commute, so the tick is extensionally the
spec-ordered composition advance_waiting → spawn → move → record. -/

theorem assign_gate_set_holds (cap : CapacityState) (h : List HoldQueue)
    (aid : String) (ap cls : Option String) :
    ({ cap with holds := h } : CapacityState).assign_gate aid none ap cls =
      ((cap.assign_gate aid none ap cls).fst,
       { (cap.assign_gate aid none ap cls).snd with holds := h }) := by
  unfold CapacityState.assign_gate
  have hav : ({ cap with holds := h } : CapacityState).get_available_gates ap cls =
      cap.get_available_gates ap cls := rfl
  rw [hav]
  cases (cap.get_available_gates ap cls).head? <;> rfl

theorem spawn_departures_set_holds (layout : Layout) (params : SimulationParams)
    (cap : CapacityState) (h : List HoldQueue) (router : Router) (time dt : ℚ)
    (rng : PyRng) (uuid_hex : String) :
    spawn_departures layout params { cap with holds := h } router time dt rng uuid_hex =
      ((spawn_departures layout params cap router time dt rng uuid_hex).1,
       { (spawn_departures layout params cap router time dt rng uuid_hex).2.1 with
          holds := h },
       (spawn_departures layout params cap router time dt rng uuid_hex).2.2) := by
  unfold spawn_departures
  dsimp only
  split
  · rfl
  · split
    · rfl
    · rw [assign_gate_set_holds]
      cases hga : (cap.assign_gate "PENDING" none none
          (some (params.sample_aircraft_class false
            (params.get_spawn_rate false rng).snd.random.snd).fst)).fst with
      | none => rfl
      | some gid =>
          dsimp only
          split
          · rfl
          · split
            · rfl
            · split <;> rfl

theorem spawn_arrivals_set_holds (layout : Layout) (params : SimulationParams)
    (cap : CapacityState) (h : List HoldQueue) (router : Router) (time dt : ℚ)
    (rng : PyRng) (uuid_hex : String) :
    spawn_arrivals layout params { cap with holds := h } router time dt rng uuid_hex =
      ((spawn_arrivals layout params cap router time dt rng uuid_hex).1,
       { (spawn_arrivals layout params cap router time dt rng uuid_hex).2.1 with
          holds := h },
       (spawn_arrivals layout params cap router time dt rng uuid_hex).2.2) := by
  unfold spawn_arrivals
  dsimp only
  split
  · rfl
  · split
    · rfl
    · split
      · rfl
      · rw [assign_gate_set_holds]
        cases hga : (cap.assign_gate "PENDING" none none
            (some (params.sample_aircraft_class true
              (params.get_spawn_rate true rng).snd.random.snd).fst)).fst with
        | none => rfl
        | some gid =>
            dsimp only
            split
            · rfl
            · split <;> rfl

theorem add_to_edge_set_holds (cap : CapacityState) (h : List HoldQueue)
    (aid eid : String) :
    ({ cap with holds := h } : CapacityState).add_to_edge aid eid =
      { cap.add_to_edge aid eid with holds := h } := by
  unfold CapacityState.add_to_edge
  have hfe : ({ cap with holds := h } : CapacityState).findEdge eid =
      cap.findEdge eid := rfl
  rw [hfe]
  cases cap.findEdge eid <;> rfl

theorem registerFirstEdges_set_holds (acs : List Aircraft) (cap : CapacityState)
    (h : List HoldQueue) :
    registerFirstEdges acs { cap with holds := h } =
      { registerFirstEdges acs cap with holds := h } := by
  induction acs generalizing cap with
  | nil => rfl
  | cons ac rest ih =>
      unfold registerFirstEdges at *
      cases hr : ac.route with
      | none => simpa [hr] using ih cap
      | some r =>
          cases he : r.edges.head? with
          | none => simpa [hr, he] using ih cap
          | some e0 =>
              simp only [hr, he, List.foldl_cons]
              rw [add_to_edge_set_holds]
              exact ih (cap.add_to_edge ac.id e0)

theorem spawn_departures_holds_unchanged (layout : Layout) (params : SimulationParams)
    (cap : CapacityState) (router : Router) (time dt : ℚ) (rng : PyRng)
    (uuid_hex : String) :
    (spawn_departures layout params cap router time dt rng uuid_hex).2.1.holds =
      cap.holds := by
  have := spawn_departures_set_holds layout params cap cap.holds router time dt rng uuid_hex
  have hcap : ({ cap with holds := cap.holds } : CapacityState) = cap := rfl
  rw [hcap] at this
  rw [this]

theorem spawn_arrivals_holds_unchanged (layout : Layout) (params : SimulationParams)
    (cap : CapacityState) (router : Router) (time dt : ℚ) (rng : PyRng)
    (uuid_hex : String) :
    (spawn_arrivals layout params cap router time dt rng uuid_hex).2.1.holds =
      cap.holds := by
  have := spawn_arrivals_set_holds layout params cap cap.holds router time dt rng uuid_hex
  have hcap : ({ cap with holds := cap.holds } : CapacityState) = cap := rfl
  rw [hcap] at this
  rw [this]

theorem registerFirstEdges_holds_unchanged (acs : List Aircraft) (cap : CapacityState) :
    (registerFirstEdges acs cap).holds = cap.holds := by
  have := registerFirstEdges_set_holds acs cap cap.holds
  have hcap : ({ cap with holds := cap.holds } : CapacityState) = cap := rfl
  rw [hcap] at this
  rw [this]

/-- C3: within every tick of the driver loop the four sub-phases compose, in
effect, in the specified fixed order: the tick as the runner executes it
(spawn departures and arrivals with first-edge registration, then
`model_core.step`, whose first action is `advance_waiting` on all hold queues,
then the movement loop, then recording at the pre-tick time) is extensionally
equal, on every state, to the composition that runs `advance_waiting` first,
then spawning, then movement, then recording.  The two leading phases commute:
spawning never reads or writes the hold queues, and `advance_waiting` touches
nothing else. -/
theorem tick_order_matches_spec (layout : Layout) (params : SimulationParams)
    (router : Router) (state : SimulationState) (cap : CapacityState)
    (metrics : MetricsCollector) (rng : PyRng) (uuid_dep uuid_arr : String) (dt : ℚ) :
    runTick layout params router state cap metrics rng uuid_dep uuid_arr dt =
      specOrderTick layout params router state cap metrics rng uuid_dep uuid_arr dt := by
  unfold runTick specOrderTick step
  dsimp only
  rw [show cap.update_hold_waiting_times dt =
      { cap with holds := cap.holds.map (fun h => h.update_waiting_times dt) } from rfl]
  rw [spawn_departures_set_holds layout params cap
    (cap.holds.map (fun h => h.update_waiting_times dt)) router state.time dt rng uuid_dep]
  dsimp only
  rw [registerFirstEdges_set_holds
    (spawn_departures layout params cap router state.time dt rng uuid_dep).1
    (spawn_departures layout params cap router state.time dt rng uuid_dep).2.1
    (cap.holds.map (fun h => h.update_waiting_times dt))]
  rw [spawn_arrivals_set_holds layout params
    (registerFirstEdges
      (spawn_departures layout params cap router state.time dt rng uuid_dep).1
      (spawn_departures layout params cap router state.time dt rng uuid_dep).2.1)
    (cap.holds.map (fun h => h.update_waiting_times dt)) router state.time dt
    (spawn_departures layout params cap router state.time dt rng uuid_dep).2.2 uuid_arr]
  dsimp only
  rw [registerFirstEdges_set_holds
    (spawn_arrivals layout params
      (registerFirstEdges
        (spawn_departures layout params cap router state.time dt rng uuid_dep).1
        (spawn_departures layout params cap router state.time dt rng uuid_dep).2.1)
      router state.time dt
      (spawn_departures layout params cap router state.time dt rng uuid_dep).2.2 uuid_arr).1
    (spawn_arrivals layout params
      (registerFirstEdges
        (spawn_departures layout params cap router state.time dt rng uuid_dep).1
        (spawn_departures layout params cap router state.time dt rng uuid_dep).2.1)
      router state.time dt
      (spawn_departures layout params cap router state.time dt rng uuid_dep).2.2 uuid_arr).2.1
    (cap.holds.map (fun h => h.update_waiting_times dt))]
  rw [show (registerFirstEdges
      (spawn_arrivals layout params
        (registerFirstEdges
          (spawn_departures layout params cap router state.time dt rng uuid_dep).1
          (spawn_departures layout params cap router state.time dt rng uuid_dep).2.1)
        router state.time dt
        (spawn_departures layout params cap router state.time dt rng uuid_dep).2.2
        uuid_arr).1
      (spawn_arrivals layout params
        (registerFirstEdges
          (spawn_departures layout params cap router state.time dt rng uuid_dep).1
          (spawn_departures layout params cap router state.time dt rng uuid_dep).2.1)
        router state.time dt
        (spawn_departures layout params cap router state.time dt rng uuid_dep).2.2
        uuid_arr).2.1).update_hold_waiting_times dt =
    { registerFirstEdges
        (spawn_arrivals layout params
          (registerFirstEdges
            (spawn_departures layout params cap router state.time dt rng uuid_dep).1
            (spawn_departures layout params cap router state.time dt rng uuid_dep).2.1)
          router state.time dt
          (spawn_departures layout params cap router state.time dt rng uuid_dep).2.2
          uuid_arr).1
        (spawn_arrivals layout params
          (registerFirstEdges
            (spawn_departures layout params cap router state.time dt rng uuid_dep).1
            (spawn_departures layout params cap router state.time dt rng uuid_dep).2.1)
          router state.time dt
          (spawn_departures layout params cap router state.time dt rng uuid_dep).2.2
          uuid_arr).2.1 with
      holds := (registerFirstEdges
        (spawn_arrivals layout params
          (registerFirstEdges
            (spawn_departures layout params cap router state.time dt rng uuid_dep).1
            (spawn_departures layout params cap router state.time dt rng uuid_dep).2.1)
          router state.time dt
          (spawn_departures layout params cap router state.time dt rng uuid_dep).2.2
          uuid_arr).1
        (spawn_arrivals layout params
          (registerFirstEdges
            (spawn_departures layout params cap router state.time dt rng uuid_dep).1
            (spawn_departures layout params cap router state.time dt rng uuid_dep).2.1)
          router state.time dt
          (spawn_departures layout params cap router state.time dt rng uuid_dep).2.2
          uuid_arr).2.1).holds.map (fun h => h.update_waiting_times dt) } from rfl]
  rw [registerFirstEdges_holds_unchanged
    (spawn_arrivals layout params
      (registerFirstEdges
        (spawn_departures layout params cap router state.time dt rng uuid_dep).1
        (spawn_departures layout params cap router state.time dt rng uuid_dep).2.1)
      router state.time dt
      (spawn_departures layout params cap router state.time dt rng uuid_dep).2.2 uuid_arr).1
    (spawn_arrivals layout params
      (registerFirstEdges
        (spawn_departures layout params cap router state.time dt rng uuid_dep).1
        (spawn_departures layout params cap router state.time dt rng uuid_dep).2.1)
      router state.time dt
      (spawn_departures layout params cap router state.time dt rng uuid_dep).2.2 uuid_arr).2.1]
  rw [spawn_arrivals_holds_unchanged layout params
    (registerFirstEdges
      (spawn_departures layout params cap router state.time dt rng uuid_dep).1
      (spawn_departures layout params cap router state.time dt rng uuid_dep).2.1)
    router state.time dt
    (spawn_departures layout params cap router state.time dt rng uuid_dep).2.2 uuid_arr]
  rw [registerFirstEdges_holds_unchanged
    (spawn_departures layout params cap router state.time dt rng uuid_dep).1
    (spawn_departures layout params cap router state.time dt rng uuid_dep).2.1]
  rw [spawn_departures_holds_unchanged layout params cap router state.time dt rng uuid_dep]

/-! ### C4: Dijkstra route-finding

Supporting results: `popMin` behaves as extracting a minimum (a permutation
decomposition and distance minimality), the edge dict resolves ids uniquely
under nodup edge ids, `succEntries` pushes exactly the legal steps, the cost
算術, the invariant preservation lemmas, partial correctness of the fueled
loop, and sufficiency of `dijkstraFuel`. -/

theorem popMin_eq_none (pq : List Entry) (h : popMin pq = none) : pq = [] := by
  cases pq with
  | nil => rfl
  | cons a t =>
      unfold popMin at h
      cases hpt : popMin t <;> rw [hpt] at h
      · exact absurd h (by simp)
      · rename_i mr
        obtain ⟨m, r⟩ := mr
        dsimp only at h
        split at h <;> simp at h

theorem popMin_perm (pq : List Entry) (m : Entry) (rest : List Entry)
    (h : popMin pq = some (m, rest)) : pq.Perm (m :: rest) := by
  induction pq generalizing m rest with
  | nil => simp [popMin] at h
  | cons a t ih =>
      unfold popMin at h
      cases hpt : popMin t <;> rw [hpt] at h
      · have ht : t = [] := popMin_eq_none t hpt
        obtain ⟨rfl, rfl⟩ : a = m ∧ ([] : List Entry) = rest := by
          constructor <;> (cases h; rfl)
        subst ht
        exact List.Perm.refl _
      · rename_i mr
        obtain ⟨m', r'⟩ := mr
        dsimp only at h
        split at h
        · obtain ⟨rfl, rfl⟩ : a = m ∧ t = rest := by
            constructor <;> (cases h; rfl)
          exact List.Perm.refl _
        · obtain ⟨rfl, rfl⟩ : m' = m ∧ a :: r' = rest := by
            constructor <;> (cases h; rfl)
          exact ((ih m' r' hpt).cons a).trans (List.Perm.swap m' a r')

theorem entryLe_dist_le (x y : Entry) (h : entryLe x y = true) : x.dist ≤ y.dist := by
  unfold entryLe at h
  split_ifs at h with h1 h2 h3 h4
  · exact le_of_lt h1
  · exact le_of_not_lt h2
  · exact le_of_not_lt h2

theorem entryLe_dist_ge (x y : Entry) (h : entryLe x y = false) : y.dist ≤ x.dist := by
  unfold entryLe at h
  split_ifs at h with h1 h2 h3 h4
  · exact le_of_lt h2
  · exact le_of_not_lt h1
  · exact le_of_not_lt h1

theorem popMin_min_dist (pq : List Entry) (m : Entry) (rest : List Entry)
    (h : popMin pq = some (m, rest)) : ∀ x ∈ pq, m.dist ≤ x.dist := by
  induction pq generalizing m rest with
  | nil => simp [popMin] at h
  | cons a t ih =>
      unfold popMin at h
      cases hpt : popMin t <;> rw [hpt] at h
      · have ht : t = [] := popMin_eq_none t hpt
        have ha : a = m := by cases h; rfl
        subst ha ht
        intro x hx
        have : x = a := by simpa using hx
        subst this
        exact le_refl _
      · rename_i mr
        obtain ⟨m', r'⟩ := mr
        dsimp only at h
        split at h
        · rename_i hle
          have ha : a = m := by cases h; rfl
          subst ha
          intro x hx
          rcases List.mem_cons.mp hx with rfl | hxt
          · exact le_refl _
          · exact le_trans (entryLe_dist_le a m' hle) (ih m' r' hpt x hxt)
        · rename_i hle
          have hm : m' = m := by cases h; rfl
          subst hm
          have hfalse : entryLe a m' = false := by
            cases hb : entryLe a m'
            · rfl
            · exact absurd hb hle
          intro x hx
          rcases List.mem_cons.mp hx with rfl | hxt
          · exact entryLe_dist_ge x m' hfalse
          · exact ih m' r' hpt x hxt

theorem get_edge_mem (l : Layout) (eid : String) (e : Edge)
    (h : l.get_edge eid = some e) : e ∈ l.edges ∧ e.id = eid := by
  unfold Layout.get_edge at h
  have hp := List.find?_some h
  exact ⟨List.mem_of_find?_eq_some h, eq_of_beq (by simpa using hp)⟩

theorem find?_id_nodup (e : Edge) : ∀ (es : List Edge),
    (es.map Edge.id).Nodup → e ∈ es →
    es.find? (fun x => x.id == e.id) = some e := by
  intro es
  induction es with
  | nil => intro _ h; simp at h
  | cons f t ih =>
      intro hnd hmem
      have hnd' : f.id ∉ t.map Edge.id ∧ (t.map Edge.id).Nodup := by
        rw [List.map_cons, List.nodup_cons] at hnd
        exact hnd
      cases hbeq : (f.id == e.id) with
      | true =>
          have hfe : f.id = e.id := eq_of_beq hbeq
          rcases List.mem_cons.mp hmem with rfl | hmt
          · exact List.find?_cons_of_pos _ hbeq
          · have : f.id ∈ t.map Edge.id := by
              rw [hfe]
              exact List.mem_map_of_mem Edge.id hmt
            exact absurd this hnd'.1
      | false =>
          rcases List.mem_cons.mp hmem with rfl | hmt
          · simp at hbeq
          · rw [List.find?_cons_of_neg _ (by simp [hbeq])]
            exact ih hnd'.2 hmt

theorem get_edge_of_mem (l : Layout) (e : Edge)
    (hN : (l.edges.map Edge.id).Nodup) (he : e ∈ l.edges) :
    l.get_edge e.id = some e :=
  find?_id_nodup e l.edges hN he

theorem mem_edgesFromIds (l : Layout) (u eid : String) :
    eid ∈ l.edgesFromIds u ↔
      ∃ e0 ∈ l.edges, e0.id = eid ∧
        (e0.start_node = u ∨ (e0.one_way = false ∧ e0.end_node = u)) := by
  unfold Layout.edgesFromIds
  rw [List.mem_flatMap]
  constructor
  · rintro ⟨e0, he0, hmem⟩
    rcases List.mem_append.mp hmem with hs | he
    · split at hs
      · rename_i hc
        exact ⟨e0, he0, (List.mem_singleton.mp hs).symm, Or.inl (eq_of_beq hc)⟩
      · simp at hs
    · split at he
      · rename_i hc
        simp only [Bool.and_eq_true, Bool.not_eq_true', beq_iff_eq] at hc
        exact ⟨e0, he0, (List.mem_singleton.mp he).symm, Or.inr ⟨hc.1, hc.2⟩⟩
      · simp at he
  · rintro ⟨e0, he0, rfl, hadj | hadj⟩
    · refine ⟨e0, he0, List.mem_append.mpr (Or.inl ?_)⟩
      rw [if_pos (by simp [hadj])]
      exact List.mem_singleton.mpr rfl
    · refine ⟨e0, he0, List.mem_append.mpr (Or.inr ?_)⟩
      rw [if_pos (by simp [hadj.1, hadj.2])]
      exact List.mem_singleton.mpr rfl

theorem mem_edges_from_node_sub (l : Layout) (u : String) (e : Edge)
    (h : e ∈ l.get_edges_from_node u) : e ∈ l.edges := by
  unfold Layout.get_edges_from_node at h
  obtain ⟨eid, _, hge⟩ := List.mem_filterMap.mp h
  exact (get_edge_mem l eid e hge).1

theorem mem_edges_from_node (l : Layout) (u : String) (e : Edge)
    (hN : (l.edges.map Edge.id).Nodup) :
    e ∈ l.get_edges_from_node u ↔
      e ∈ l.edges ∧ (e.start_node = u ∨ (e.one_way = false ∧ e.end_node = u)) := by
  unfold Layout.get_edges_from_node
  rw [List.mem_filterMap]
  constructor
  · rintro ⟨eid, hid, hge⟩
    obtain ⟨hmem, hide⟩ := get_edge_mem l eid e hge
    obtain ⟨e0, he0, hid0, hadj⟩ := (mem_edgesFromIds l u eid).mp hid
    have : e0 = e :=
      List.inj_on_of_nodup_map hN he0 hmem (by rw [hid0, hide])
    subst this
    exact ⟨hmem, hadj⟩
  · rintro ⟨hmem, hadj⟩
    exact ⟨e.id, (mem_edgesFromIds l u e.id).mpr ⟨e, hmem, rfl, hadj⟩,
      get_edge_of_mem l e hN hmem⟩

theorem succEntries_node_endpoint (l : Layout) (c : String) (b : Bool)
    (blocked congested : List String) (u : String) (dist : ℚ) (path : List String)
    (visited : List String) (ent : Entry)
    (h : ent ∈ succEntries l c b blocked congested u dist path visited) :
    ∃ e ∈ l.edges, ent.node = e.end_node ∨ ent.node = e.start_node := by
  unfold succEntries at h
  obtain ⟨e, he, hbody⟩ := List.mem_filterMap.mp h
  refine ⟨e, mem_edges_from_node_sub l u e he, ?_⟩
  split at hbody
  · simp at hbody
  · dsimp only at hbody
    split at hbody
    · simp at hbody
    · rename_i v htarget
      split at hbody
      · simp at hbody
      · split at hbody
        · have hent : ent = ⟨dist + effCost congested e, v, path ++ [e.id]⟩ := by
            cases hbody; rfl
          subst hent
          dsimp only
          split at htarget
          · exact Or.inl (by cases htarget; rfl)
          · split at htarget
            · exact Or.inr (by cases htarget; rfl)
            · simp at htarget
        · simp at hbody

theorem succEntries_mem (l : Layout) (c : String) (b : Bool)
    (blocked congested : List String) (u : String) (dist : ℚ) (path : List String)
    (visited : List String) (ent : Entry)
    (hN : (l.edges.map Edge.id).Nodup) :
    ent ∈ succEntries l c b blocked congested u dist path visited ↔
      ∃ e v, stepRel l c b blocked u e v ∧ v ∉ visited ∧
        ent = ⟨dist + effCost congested e, v, path ++ [e.id]⟩ := by
  unfold succEntries
  rw [List.mem_filterMap]
  constructor
  · rintro ⟨e, he, hbody⟩
    obtain ⟨hmem, hadj⟩ := (mem_edges_from_node l u e hN).mp he
    split at hbody
    · simp at hbody
    · rename_i hbl
      dsimp only at hbody
      split at hbody
      · simp at hbody
      · rename_i v htarget
        split at hbody
        · simp at hbody
        · rename_i hnv
          split at hbody
          · rename_i hacc
            have hent : ent = ⟨dist + effCost congested e, v, path ++ [e.id]⟩ := by
              cases hbody; rfl
            refine ⟨e, v, ⟨hmem, hbl, hacc, ?_⟩, hnv, hent⟩
            split at htarget
            · rename_i hsu
              exact Or.inl ⟨eq_of_beq hsu, by cases htarget; rfl⟩
            · rename_i hsu
              split at htarget
              · rename_i hw
                have hne : e.start_node ≠ u := by
                  intro hc
                  exact hsu (by simp [hc])
                have hone : e.one_way = false := by
                  simpa using hw
                have hend : e.end_node = u := by
                  rcases hadj with h' | h'
                  · exact absurd h' hne
                  · exact h'.2
                exact Or.inr ⟨hne, hone, hend, by cases htarget; rfl⟩
              · simp at htarget
          · simp at hbody
  · rintro ⟨e, v, ⟨hmem, hbl, hacc, hdir⟩, hnv, hent⟩
    have hadj : e.start_node = u ∨ (e.one_way = false ∧ e.end_node = u) := by
      rcases hdir with ⟨hs, _⟩ | ⟨_, hw, hend, _⟩
      · exact Or.inl hs
      · exact Or.inr ⟨hw, hend⟩
    refine ⟨e, (mem_edges_from_node l u e hN).mpr ⟨hmem, hadj⟩, ?_⟩
    rw [if_neg hbl]
    dsimp only
    rcases hdir with ⟨hs, hv⟩ | ⟨hs, hw, _, hv⟩
    · rw [if_pos (by simp [hs])]
      dsimp only
      rw [if_neg (hv ▸ hnv), if_pos hacc, hent, hv]
    · rw [if_neg (by simp [hs]), if_pos (by simp [hw])]
      dsimp only
      rw [if_neg (hv ▸ hnv), if_pos hacc, hent, hv]

theorem IsPath_append (l : Layout) (c : String) (b : Bool) (blocked : List String)
    (o u v : String) (p : List String) (e : Edge)
    (hp : IsPath l c b blocked o p u) (hstep : stepRel l c b blocked u e v) :
    IsPath l c b blocked o (p ++ [e.id]) v := by
  induction hp with
  | nil w => exact .cons hstep (.nil v)
  | cons hstep0 _ ih => exact .cons hstep0 (ih hstep)

theorem routeCost_cons (l : Layout) (congested : List String) (x : String)
    (ids : List String) :
    routeCost l congested (x :: ids) = idCost l congested x + routeCost l congested ids := by
  simp [routeCost]

theorem routeCost_append (l : Layout) (congested : List String) (p q : List String) :
    routeCost l congested (p ++ q) = routeCost l congested p + routeCost l congested q := by
  simp [routeCost]

theorem idCost_of_mem (l : Layout) (congested : List String) (e : Edge)
    (hN : (l.edges.map Edge.id).Nodup) (he : e ∈ l.edges) :
    idCost l congested e.id = effCost congested e := by
  unfold idCost
  rw [get_edge_of_mem l e hN he]

theorem idCost_nonneg (l : Layout) (congested : List String) (eid : String)
    (hpos : ∀ e ∈ l.edges, 0 ≤ e.length) : 0 ≤ idCost l congested eid := by
  unfold idCost
  cases hge : l.get_edge eid with
  | none => exact le_refl 0
  | some e =>
      dsimp only
      have hlen := hpos e (get_edge_mem l eid e hge).1
      unfold effCost
      split
      · linarith
      · exact hlen

theorem routeCost_nonneg (l : Layout) (congested : List String) (ids : List String)
    (hpos : ∀ e ∈ l.edges, 0 ≤ e.length) : 0 ≤ routeCost l congested ids := by
  unfold routeCost
  apply List.sum_nonneg
  intro x hx
  obtain ⟨eid, _, rfl⟩ := List.mem_map.mp hx
  exact idCost_nonneg l congested eid hpos

theorem dijkstra_cover_aux (l : Layout) (c : String) (b : Bool)
    (blocked congested : List String) (o d : String)
    (pq : List Entry) (visited : List String) (D : List (String × ℚ))
    (hN : (l.edges.map Edge.id).Nodup)
    (hpos : ∀ e ∈ l.edges, 0 ≤ e.length)
    (inv : DijkstraInv l c b blocked congested o d pq visited D)
    (z : String) (hz : z ∉ visited) :
    ∀ ids u, IsPath l c b blocked u ids z → u ∈ visited →
    ∀ pre, IsPath l c b blocked o pre u →
    ∃ ent ∈ pq, ent.dist ≤ routeCost l congested (pre ++ ids) := by
  intro ids
  induction ids with
  | nil =>
      intro u hP hu pre _
      cases hP
      exact absurd hu hz
  | cons x rest ih =>
      intro u hP hu pre hpre
      cases hP with
      | cons hstep htail =>
          rename_i v e
          by_cases hv : v ∈ visited
          · obtain ⟨ent, hent, hcost⟩ := ih v htail hv (pre ++ [e.id])
              (IsPath_append l c b blocked o u v pre e hpre hstep)
            refine ⟨ent, hent, ?_⟩
            calc ent.dist ≤ routeCost l congested ((pre ++ [e.id]) ++ rest) := hcost
              _ = routeCost l congested (pre ++ e.id :: rest) := by
                  rw [List.append_assoc, List.singleton_append]
          · obtain ⟨du, hdu⟩ := inv.settled_keys u hu
            obtain ⟨ent, hent, _, hdist⟩ :=
              inv.settled_relax (u, du) hdu e v hstep hv
            refine ⟨ent, hent, ?_⟩
            have hduB : du ≤ routeCost l congested pre :=
              inv.settled_opt (u, du) hdu pre hpre
            have hrest : 0 ≤ routeCost l congested rest :=
              routeCost_nonneg l congested rest hpos
            have hid : idCost l congested e.id = effCost congested e :=
              idCost_of_mem l congested e hN hstep.1
            have hsplit : routeCost l congested (pre ++ e.id :: rest) =
                routeCost l congested pre + effCost congested e +
                  routeCost l congested rest := by
              rw [routeCost_append, routeCost_cons, hid]
              ring
            rw [hsplit]
            calc ent.dist ≤ du + effCost congested e := hdist
              _ ≤ routeCost l congested pre + effCost congested e := by linarith
              _ ≤ _ := by linarith

theorem dijkstra_cover (l : Layout) (c : String) (b : Bool)
    (blocked congested : List String) (o d : String)
    (pq : List Entry) (visited : List String) (D : List (String × ℚ))
    (hN : (l.edges.map Edge.id).Nodup)
    (hpos : ∀ e ∈ l.edges, 0 ≤ e.length)
    (inv : DijkstraInv l c b blocked congested o d pq visited D)
    (ids : List String) (z : String)
    (hP : IsPath l c b blocked o ids z) (hz : z ∉ visited) :
    ∃ ent ∈ pq, ent.dist ≤ routeCost l congested ids := by
  by_cases ho : o ∈ visited
  · have := dijkstra_cover_aux l c b blocked congested o d pq visited D hN hpos inv
      z hz ids o hP ho [] (IsPath.nil o)
    simpa using this
  · rcases inv.origin_cover with h' | ⟨ent, hent, _, hdist⟩
    · exact absurd h' ho
    · exact ⟨ent, hent, by rw [hdist]; exact routeCost_nonneg l congested ids hpos⟩

theorem dijkstra_popped_min (l : Layout) (c : String) (b : Bool)
    (blocked congested : List String) (o d : String)
    (pq : List Entry) (visited : List String) (D : List (String × ℚ))
    (m : Entry) (rest : List Entry)
    (hN : (l.edges.map Edge.id).Nodup)
    (hpos : ∀ e ∈ l.edges, 0 ≤ e.length)
    (inv : DijkstraInv l c b blocked congested o d pq visited D)
    (hpop : popMin pq = some (m, rest)) (hm : m.node ∉ visited) :
    ∀ ids, IsPath l c b blocked o ids m.node →
      m.dist ≤ routeCost l congested ids := by
  intro ids hP
  obtain ⟨ent, hent, hd⟩ :=
    dijkstra_cover l c b blocked congested o d pq visited D hN hpos inv ids m.node hP hm
  exact le_trans (popMin_min_dist pq m rest hpop ent hent) hd

theorem dijkstraInv_init (l : Layout) (c : String) (b : Bool)
    (blocked congested : List String) (o d : String) :
    DijkstraInv l c b blocked congested o d [⟨0, o, []⟩] [] [] := by
  refine ⟨?_, ?_, ?_, ?_, ?_, ?_, ?_⟩
  · intro ent hent
    have : ent = ⟨0, o, []⟩ := by simpa using hent
    subst this
    exact ⟨IsPath.nil o, rfl⟩
  · intro z hz
    simp at hz
  · intro p hp
    simp at hp
  · intro p hp
    simp at hp
  · intro p hp
    simp at hp
  · exact Or.inr ⟨⟨0, o, []⟩, by simp, rfl, rfl⟩
  · simp

theorem dijkstraInv_skip (l : Layout) (c : String) (b : Bool)
    (blocked congested : List String) (o d : String)
    (pq : List Entry) (visited : List String) (D : List (String × ℚ))
    (m : Entry) (rest : List Entry)
    (inv : DijkstraInv l c b blocked congested o d pq visited D)
    (hpop : popMin pq = some (m, rest)) (hmv : m.node ∈ visited) :
    DijkstraInv l c b blocked congested o d rest visited D := by
  have hperm := popMin_perm pq m rest hpop
  have hsub : ∀ ent ∈ rest, ent ∈ pq := fun ent h =>
    hperm.mem_iff.mpr (List.mem_cons_of_mem m h)
  have hdec : ∀ ent ∈ pq, ent = m ∨ ent ∈ rest := fun ent h =>
    List.mem_cons.mp (hperm.mem_iff.mp h)
  refine ⟨?_, inv.settled_keys, inv.keys_settled, inv.settled_opt, ?_, ?_,
    inv.dest_unvisited⟩
  · intro ent hent
    exact inv.entries_ok ent (hsub ent hent)
  · intro p hp e v hstep hv
    obtain ⟨ent, hent, hnode, hdist⟩ := inv.settled_relax p hp e v hstep hv
    rcases hdec ent hent with rfl | hr
    · exact absurd (hnode ▸ hmv) hv
    · exact ⟨ent, hr, hnode, hdist⟩
  · rcases inv.origin_cover with h | ⟨ent, hent, hnode, hdist⟩
    · exact Or.inl h
    · rcases hdec ent hent with rfl | hr
      · exact Or.inl (hnode ▸ hmv)
      · exact Or.inr ⟨ent, hr, hnode, hdist⟩

theorem dijkstraInv_expand (l : Layout) (c : String) (b : Bool)
    (blocked congested : List String) (o d : String)
    (pq : List Entry) (visited : List String) (D : List (String × ℚ))
    (m : Entry) (rest : List Entry)
    (hN : (l.edges.map Edge.id).Nodup)
    (hpos : ∀ e ∈ l.edges, 0 ≤ e.length)
    (inv : DijkstraInv l c b blocked congested o d pq visited D)
    (hpop : popMin pq = some (m, rest))
    (hmv : m.node ∉ visited) (hmd : m.node ≠ d) :
    DijkstraInv l c b blocked congested o d
      (rest ++ succEntries l c b blocked congested m.node m.dist m.path
        (m.node :: visited))
      (m.node :: visited) ((m.node, m.dist) :: D) := by
  have hperm := popMin_perm pq m rest hpop
  have hmem_m : m ∈ pq := hperm.mem_iff.mpr (List.mem_cons_self _ _)
  have hsub : ∀ ent ∈ rest, ent ∈ pq := fun ent h =>
    hperm.mem_iff.mpr (List.mem_cons_of_mem m h)
  have hdec : ∀ ent ∈ pq, ent = m ∨ ent ∈ rest := fun ent h =>
    List.mem_cons.mp (hperm.mem_iff.mp h)
  obtain ⟨hmP, hmC⟩ := inv.entries_ok m hmem_m
  refine ⟨?_, ?_, ?_, ?_, ?_, ?_, ?_⟩
  · intro ent hent
    rcases List.mem_append.mp hent with hr | hs
    · exact inv.entries_ok ent (hsub ent hr)
    · obtain ⟨e, v, hstep, _, rfl⟩ :=
        (succEntries_mem l c b blocked congested m.node m.dist m.path
          (m.node :: visited) _ hN).mp hs
      refine ⟨IsPath_append l c b blocked o m.node v m.path e hmP hstep, ?_⟩
      have hco : routeCost l congested (m.path ++ [e.id]) =
          routeCost l congested m.path + effCost congested e := by
        rw [routeCost_append, routeCost_cons,
          idCost_of_mem l congested e hN hstep.1]
        simp [routeCost]
      dsimp only
      rw [hco, hmC]
  · intro z hz
    rcases List.mem_cons.mp hz with rfl | hzv
    · exact ⟨m.dist, List.mem_cons_self _ _⟩
    · obtain ⟨dz, hdz⟩ := inv.settled_keys z hzv
      exact ⟨dz, List.mem_cons_of_mem _ hdz⟩
  · intro p hp
    rcases List.mem_cons.mp hp with rfl | hpD
    · exact List.mem_cons_self _ _
    · exact List.mem_cons_of_mem _ (inv.keys_settled p hpD)
  · intro p hp ids hP
    rcases List.mem_cons.mp hp with rfl | hpD
    · exact dijkstra_popped_min l c b blocked congested o d pq visited D m rest
        hN hpos inv hpop hmv ids hP
    · exact inv.settled_opt p hpD ids hP
  · intro p hp e v hstep hv
    rcases List.mem_cons.mp hp with rfl | hpD
    · exact ⟨⟨m.dist + effCost congested e, v, m.path ++ [e.id]⟩,
        List.mem_append_right _
          ((succEntries_mem l c b blocked congested m.node m.dist m.path
            (m.node :: visited) _ hN).mpr ⟨e, v, hstep, hv, rfl⟩),
        rfl, le_refl _⟩
    · have hv' : v ∉ visited := fun hc => hv (List.mem_cons_of_mem _ hc)
      obtain ⟨ent, hent, hnode, hdist⟩ := inv.settled_relax p hpD e v hstep hv'
      rcases hdec ent hent with rfl | hr
      · exact absurd (List.mem_cons.mpr (Or.inl hnode.symm)) hv
      · exact ⟨ent, List.mem_append_left _ hr, hnode, hdist⟩
  · rcases inv.origin_cover with h | ⟨ent, hent, hnode, hdist⟩
    · exact Or.inl (List.mem_cons_of_mem _ h)
    · rcases hdec ent hent with rfl | hr
      · exact Or.inl (List.mem_cons.mpr (Or.inl hnode.symm))
      · exact Or.inr ⟨ent, List.mem_append_left _ hr, hnode, hdist⟩
  · intro hdm
    rcases List.mem_cons.mp hdm with h | h
    · exact hmd h.symm
    · exact inv.dest_unvisited h

theorem dijkstraLoop_sound (l : Layout) (c : String) (b : Bool)
    (blocked congested : List String) (o d : String)
    (hN : (l.edges.map Edge.id).Nodup)
    (hpos : ∀ e ∈ l.edges, 0 ≤ e.length) :
    ∀ (fuel : Nat) (pq : List Entry) (visited : List String)
      (D : List (String × ℚ)),
    DijkstraInv l c b blocked congested o d pq visited D →
    ∀ res, dijkstraLoop l c b blocked congested o d fuel pq visited = some res →
    (∀ r, res = some r →
      r.origin_node = o ∧ r.destination_node = d ∧
      IsPath l c b blocked o r.edges d ∧
      r.total_length = routeCost l congested r.edges ∧
      (∀ ids, IsPath l c b blocked o ids d →
        r.total_length ≤ routeCost l congested ids)) ∧
    (res = none → ∀ ids, ¬ IsPath l c b blocked o ids d) := by
  intro fuel
  induction fuel with
  | zero =>
      intro pq visited D _ res hres
      simp [dijkstraLoop] at hres
  | succ f ih =>
      intro pq visited D inv res hres
      rw [dijkstraLoop] at hres
      cases hpop : popMin pq with
      | none =>
          rw [hpop] at hres
          injection hres with h
          subst h
          constructor
          · intro r hr
            exact absurd hr (by simp)
          · intro _ ids hP
            have hpq : pq = [] := popMin_eq_none pq hpop
            obtain ⟨ent, hent, _⟩ := dijkstra_cover l c b blocked congested o d
              pq visited D hN hpos inv ids d hP inv.dest_unvisited
            rw [hpq] at hent
            simp at hent
      | some mr =>
          obtain ⟨m, rest⟩ := mr
          rw [hpop] at hres
          dsimp only at hres
          by_cases hmv : m.node ∈ visited
          · rw [if_pos hmv] at hres
            exact ih rest visited D (dijkstraInv_skip l c b blocked congested o d
              pq visited D m rest inv hpop hmv) res hres
          · rw [if_neg hmv] at hres
            by_cases hmd : (m.node == d) = true
            · rw [if_pos hmd] at hres
              injection hres with h
              subst h
              have hmd' : m.node = d := eq_of_beq hmd
              have hperm := popMin_perm pq m rest hpop
              have hmem_m : m ∈ pq := hperm.mem_iff.mpr (List.mem_cons_self _ _)
              obtain ⟨hmP, hmC⟩ := inv.entries_ok m hmem_m
              constructor
              · intro r hr
                injection hr with h2
                subst h2
                refine ⟨rfl, rfl, ?_, hmC, ?_⟩
                · rw [← hmd']
                  exact hmP
                · intro ids hP
                  exact dijkstra_popped_min l c b blocked congested o d
                    pq visited D m rest hN hpos inv hpop hmv ids
                    (hmd'.symm ▸ hP)
              · intro hr
                exact absurd hr (by simp)
            · rw [if_neg hmd] at hres
              have hmd' : m.node ≠ d := by
                intro hc
                exact hmd (by simp [hc])
              exact ih _ (m.node :: visited) ((m.node, m.dist) :: D)
                (dijkstraInv_expand l c b blocked congested o d pq visited D
                  m rest hN hpos inv hpop hmv hmd') res hres

theorem filter_cons_visited_length (L : List String) (a : String) (vis : List String)
    (hnd : L.Nodup) (ha : a ∈ L) (hav : a ∉ vis) :
    (L.filter (fun z => z ∉ vis)).length =
      (L.filter (fun z => z ∉ a :: vis)).length + 1 := by
  induction L with
  | nil => simp at ha
  | cons x t ih =>
      obtain ⟨hx, hnd'⟩ := List.nodup_cons.mp hnd
      rw [List.filter_cons, List.filter_cons]
      rcases List.mem_cons.mp ha with rfl | hat
      · rw [if_pos (by simpa using hav), if_neg (by simp)]
        have hfe : t.filter (fun z => z ∉ vis) = t.filter (fun z => z ∉ a :: vis) := by
          apply List.filter_congr
          intro z hz
          have hza : z ≠ a := fun hc => hx (hc ▸ hz)
          simp [List.mem_cons, hza]
        rw [hfe]
        simp
      · have hxa : x ≠ a := fun hc => hx (hc ▸ hat)
        by_cases hxv : x ∈ vis
        · rw [if_neg (by simp [hxv]), if_neg (by simp [List.mem_cons, hxv])]
          exact ih hnd' hat
        · rw [if_pos (by simpa using hxv),
            if_pos (by simp [List.mem_cons, hxa, hxv])]
          simp only [List.length_cons]
          rw [ih hnd' hat]

theorem flatMap_pair_length {α β : Type} (f : α → List β)
    (h : ∀ a, (f a).length ≤ 2) :
    ∀ es : List α, (es.flatMap f).length ≤ 2 * es.length := by
  intro es
  induction es with
  | nil => simp
  | cons x t ih =>
      simp only [List.flatMap_cons, List.length_append, List.length_cons]
      have := h x
      omega

theorem edgesFromIds_length_le (l : Layout) (u : String) :
    (l.edgesFromIds u).length ≤ 2 * l.edges.length := by
  unfold Layout.edgesFromIds
  apply flatMap_pair_length
  intro e
  rw [List.length_append]
  split <;> split <;> simp

theorem succEntries_length_le (l : Layout) (c : String) (b : Bool)
    (blocked congested : List String) (u : String) (dist : ℚ) (path : List String)
    (visited : List String) :
    (succEntries l c b blocked congested u dist path visited).length ≤
      2 * l.edges.length := by
  unfold succEntries Layout.get_edges_from_node
  refine le_trans (List.length_filterMap_le _ _) ?_
  refine le_trans (List.length_filterMap_le _ _) ?_
  exact edgesFromIds_length_le l u

theorem dijkstraLoop_isSome (l : Layout) (c : String) (b : Bool)
    (blocked congested : List String) (o d : String) :
    ∀ (fuel : Nat) (pq : List Entry) (visited : List String),
    (∀ ent ∈ pq, ent.node ∈ nodeUniverse l o) →
    dijkstraMeasure l o pq visited < fuel →
    (dijkstraLoop l c b blocked congested o d fuel pq visited).isSome = true := by
  intro fuel
  induction fuel with
  | zero =>
      intro pq visited _ hlt
      exact absurd hlt (Nat.not_lt_zero _)
  | succ f ih =>
      intro pq visited hU hlt
      rw [dijkstraLoop]
      cases hpop : popMin pq with
      | none => simp
      | some mr =>
          obtain ⟨m, rest⟩ := mr
          dsimp only
          have hperm := popMin_perm pq m rest hpop
          have hlen : pq.length = rest.length + 1 := by
            have := hperm.length_eq
            simpa using this
          by_cases hmv : m.node ∈ visited
          · rw [if_pos hmv]
            apply ih rest visited
            · intro ent h
              exact hU ent (hperm.mem_iff.mpr (List.mem_cons_of_mem _ h))
            · unfold dijkstraMeasure at hlt ⊢
              omega
          · rw [if_neg hmv]
            by_cases hmd : (m.node == d) = true
            · rw [if_pos hmd]
              simp
            · rw [if_neg hmd]
              apply ih
              · intro ent hent
                rcases List.mem_append.mp hent with h | h
                · exact hU ent (hperm.mem_iff.mpr (List.mem_cons_of_mem _ h))
                · obtain ⟨e, he, hdisj⟩ := succEntries_node_endpoint l c b
                    blocked congested m.node m.dist m.path (m.node :: visited) ent h
                  unfold nodeUniverse
                  apply List.mem_cons_of_mem
                  apply List.mem_flatMap.mpr
                  exact ⟨e, he, by rcases hdisj with h' | h' <;> simp [h']⟩
              · have hmU : m.node ∈ (nodeUniverse l o).dedup :=
                  List.mem_dedup.mpr (hU m (hperm.mem_iff.mpr (List.mem_cons_self _ _)))
                have hcount := filter_cons_visited_length (nodeUniverse l o).dedup
                  m.node visited (List.nodup_dedup _) hmU hmv
                have hsucc := succEntries_length_le l c b blocked congested
                  m.node m.dist m.path (m.node :: visited)
                have hmul : ((nodeUniverse l o).dedup.filter
                      (fun z => z ∉ visited)).length * (2 * l.edges.length + 1) =
                    ((nodeUniverse l o).dedup.filter
                      (fun z => z ∉ m.node :: visited)).length *
                      (2 * l.edges.length + 1) + (2 * l.edges.length + 1) := by
                  rw [hcount]
                  ring
                unfold dijkstraMeasure at hlt ⊢
                rw [List.length_append]
                omega

/-- C4: on a layout with unique edge ids (guaranteed by the source's edge
dict), all edge lengths nonnegative, and both endpoints present as nodes,
`find_route(o, d, class, is_arrival)` (with an empty cache, so the Dijkstra
phase runs) returns a `Route` whose edges form a path from `o` to `d` using
only edges with `can_access` true, traversed forward always or in reverse
only when not one-way, whose `total_length` is the cost of that path and is
minimal among all such paths; and it returns `None` exactly when no such path
exists.  Without the nonnegative-length hypothesis — which the code never
validates — minimality fails (see the counterexample). -/
theorem find_route_dijkstra_correct (l : Layout) (o d : String)
    (aircraft_class : String) (is_arrival : Bool)
    (hN : (l.edges.map Edge.id).Nodup)
    (hpos : ∀ e ∈ l.edges, 0 ≤ e.length)
    (ho : (l.get_node o).isSome = true)
    (hd : (l.get_node d).isSome = true) :
    (∀ r, (Router.mk l ⟨[]⟩).find_route o d aircraft_class is_arrival = some r →
      r.origin_node = o ∧ r.destination_node = d ∧
      IsPath l aircraft_class is_arrival [] o r.edges d ∧
      r.total_length = routeCost l [] r.edges ∧
      (∀ ids, IsPath l aircraft_class is_arrival [] o ids d →
        r.total_length ≤ routeCost l [] ids)) ∧
    ((Router.mk l ⟨[]⟩).find_route o d aircraft_class is_arrival = none →
      ∀ ids, ¬ IsPath l aircraft_class is_arrival [] o ids d) := by
  have hfr : (Router.mk l ⟨[]⟩).find_route o d aircraft_class is_arrival =
      findRouteDijkstra l o d aircraft_class is_arrival := rfl
  have hU0 : ∀ ent ∈ ([⟨0, o, []⟩] : List Entry), ent.node ∈ nodeUniverse l o := by
    intro ent hent
    have : ent = ⟨0, o, []⟩ := by simpa using hent
    subst this
    exact List.mem_cons_self _ _
  have hmeas : dijkstraMeasure l o [⟨0, o, []⟩] [] < dijkstraFuel l o := by
    unfold dijkstraMeasure dijkstraFuel
    have hle : ((nodeUniverse l o).dedup.filter
        (fun z => z ∉ ([] : List String))).length ≤
          (nodeUniverse l o).dedup.length := List.length_filter_le _ _
    have := Nat.mul_le_mul_right (2 * l.edges.length + 1) hle
    simp only [List.length_cons, List.length_nil]
    omega
  have hsome := dijkstraLoop_isSome l aircraft_class is_arrival [] [] o d
    (dijkstraFuel l o) [⟨0, o, []⟩] [] hU0 hmeas
  obtain ⟨res, hres⟩ := Option.isSome_iff_exists.mp hsome
  have hsound := dijkstraLoop_sound l aircraft_class is_arrival [] [] o d hN hpos
    (dijkstraFuel l o) [⟨0, o, []⟩] [] []
    (dijkstraInv_init l aircraft_class is_arrival [] [] o d) res hres
  have hno : ¬ ((l.get_node o).isNone = true) := by
    intro hc
    rw [Option.isNone_iff_eq_none] at hc
    rw [hc] at ho
    simp at ho
  have hnd2 : ¬ ((l.get_node d).isNone = true) := by
    intro hc
    rw [Option.isNone_iff_eq_none] at hc
    rw [hc] at hd
    simp at hd
  have hval : (Router.mk l ⟨[]⟩).find_route o d aircraft_class is_arrival = res := by
    rw [hfr]
    unfold findRouteDijkstra
    rw [if_neg hno, if_neg hnd2, hres]
  constructor
  · intro r hr
    rw [hval] at hr
    exact hsound.1 r hr
  · intro hnone
    rw [hval] at hnone
    exact hsound.2 hnone

/-- C4 evaluation: the hypotheses hold for the three-node fixture with
nonnegative lengths and the conclusion is obtained by applying the theorem
there. -/
theorem find_route_dijkstra_correct_witness :
    ((fixLayoutPos.edges.map Edge.id).Nodup ∧
      (∀ e ∈ fixLayoutPos.edges, 0 ≤ e.length) ∧
      (fixLayoutPos.get_node "A").isSome = true ∧
      (fixLayoutPos.get_node "B").isSome = true) ∧
    ((∀ r, (Router.mk fixLayoutPos ⟨[]⟩).find_route "A" "B" "medium" false =
        some r →
      r.origin_node = "A" ∧ r.destination_node = "B" ∧
      IsPath fixLayoutPos "medium" false [] "A" r.edges "B" ∧
      r.total_length = routeCost fixLayoutPos [] r.edges ∧
      (∀ ids, IsPath fixLayoutPos "medium" false [] "A" ids "B" →
        r.total_length ≤ routeCost fixLayoutPos [] ids)) ∧
    ((Router.mk fixLayoutPos ⟨[]⟩).find_route "A" "B" "medium" false = none →
      ∀ ids, ¬ IsPath fixLayoutPos "medium" false [] "A" ids "B")) :=
  ⟨⟨by decide, by decide, by decide, by decide⟩,
   find_route_dijkstra_correct fixLayoutPos "A" "B" "medium" false
     (by decide) (by decide) (by decide) (by decide)⟩

/-- C4 counterexample input: with a negative-length edge — which
`Layout.validate` never rejects — the returned route is not minimal:
`find_route("A", "B")` returns the direct edge of total length 1 while the
legal path `e2, e3` costs −10. -/
theorem find_route_negative_length_counterexample :
    (Router.mk fixLayoutNeg ⟨[]⟩).find_route "A" "B" "medium" false =
      some ⟨["e1"], "A", "B", 1⟩ ∧
    IsPath fixLayoutNeg "medium" false [] "A" ["e2", "e3"] "B" ∧
    routeCost fixLayoutNeg [] ["e2", "e3"] = -10 ∧
    ¬ ((1 : ℚ) ≤ -10) := by
  have step1 : stepRel fixLayoutNeg "medium" false [] "A"
      (Edge.mk "e2" .taxiway "A" "C" 10 .both true none none) "C" :=
    ⟨by decide, by decide, by decide, Or.inl ⟨rfl, rfl⟩⟩
  have step2 : stepRel fixLayoutNeg "medium" false [] "C"
      (Edge.mk "e3" .taxiway "C" "B" (-20) .both true none none) "B" :=
    ⟨by decide, by decide, by decide, Or.inl ⟨rfl, rfl⟩⟩
  have hpath : IsPath fixLayoutNeg "medium" false [] "A" ["e2", "e3"] "B" :=
    IsPath.cons step1 (IsPath.cons step2 (IsPath.nil "B"))
  exact ⟨by decide, hpath, by decide, by decide⟩

end AirportSim
